import Mathlib

/-!
Shallow embedding of the HEARTH hunt-catalog front end.

The embedding covers the three logic components of the repository:
the catalog filter/sort engine (`app.js`), the chat intent router and its
handlers (`chat-widget.js`), and the notebook document generator.

Modelling conventions:
* JavaScript strings are Lean `String`s; `toLowerCase` is modelled
  ASCII-wise by `lowerJS`, `includes` by `containsJS`, `trim` by `trimJS`.
* Optional record fields are `Option`; a JavaScript runtime `TypeError`
  from dereferencing `undefined` is modelled by `Except Unit` with
  `.error ()`.
* `Array.prototype.sort` is a stable comparator sort; it is modelled by
  `List.insertionSort` (stable) on the relation `comparator a b ≤ 0`.
  Per ECMAScript `SortCompare`, a comparator result of `NaN` is coerced
  to `+0`; the comparators below apply that coercion directly.
-/

deriving instance DecidableEq for Except

/-- `String.prototype.toLowerCase`, ASCII model. -/
def lowerJS (s : String) : String := ⟨s.data.map Char.toLower⟩

/-- `String.prototype.includes`: `containsJS s sub` is true when `sub`
occurs in `s` as a contiguous substring. -/
def containsJS (s sub : String) : Bool :=
  s.data.tails.any (fun t => sub.data.isPrefixOf t)

/-- `String.prototype.trim`, ASCII-whitespace model. -/
def trimJS (s : String) : String :=
  ⟨((s.data.dropWhile (·.isWhitespace)).reverse.dropWhile (·.isWhitespace)).reverse⟩

/-- `String.prototype.split(sep)` for a one-character separator, on the
character list. -/
def splitOnChar (sep : Char) : List Char → List (List Char)
  | [] => [[]]
  | c :: rest =>
    match splitOnChar sep rest with
    | [] => [[c]]
    | g :: gs => if c = sep then [] :: g :: gs else (c :: g) :: gs

/-- `String.prototype.split(sep)` for a one-character separator (the
repository only splits on `','` and `'-'`). -/
def splitJS (s : String) (sep : Char) : List String :=
  (splitOnChar sep s.data).map (fun l => (⟨l⟩ : String))

/-- A hunt submitter: a name plus an optional profile link. -/
structure Submitter where
  name : String
  link : Option String
deriving DecidableEq, Repr

/-- A hunt record as loaded from `hunts-data.js`.  Per the data model,
`id`, `category` and `title` are always present; the remaining fields are
optional (`none` models a missing JSON key / JavaScript `undefined`). -/
structure Hunt where
  id : String
  category : String
  title : String
  tactic : Option String
  notes : Option String
  tags : Option (List String)
  submitter : Option Submitter
  why : Option String
  references : Option String
  file_path : Option String
deriving DecidableEq, Repr

/-! ### Catalog filter engine (`app.js`) -/

/-- The searchable concatenation built by `matchesSearchCriteria` in
`app.js`: `[id, title, tactic, notes, tags.join(' '), submitter.name]`
joined with a space; `Array.prototype.join` renders `undefined` as `''`. -/
def searchableContent (hunt : Hunt) : String :=
  String.intercalate (" ")
    [hunt.id, hunt.title, hunt.tactic.getD (""), hunt.notes.getD (""),
     String.intercalate (" ") (hunt.tags.getD []),
     (hunt.submitter.map Submitter.name).getD ("")]

/-- `matchesSearchCriteria(hunt, searchTerm)` from `app.js`; the caller
passes the already-lowercased search term. -/
def matchesSearchCriteria (hunt : Hunt) (searchTerm : String) : Bool :=
  if searchTerm = "" then true
  else containsJS (lowerJS (searchableContent hunt)) searchTerm

/-- `matchesCategory(hunt, category)` from `app.js`. -/
def matchesCategory (hunt : Hunt) (category : String) : Bool :=
  category = "" || hunt.category == category

/-- `matchesTactic(hunt, tactic)` from `app.js`: membership after
splitting the record's tactic field on commas and trimming. -/
def matchesTactic (hunt : Hunt) (tactic : String) : Bool :=
  tactic = "" ||
    (match hunt.tactic with
     | some t => ((splitJS t (',')).map trimJS).contains tactic
     | none => false)

/-- `matchesTag(hunt, tag)` from `app.js`. -/
def matchesTag (hunt : Hunt) (tag : String) : Bool :=
  tag = "" ||
    (match hunt.tags with
     | some tags => tags.contains tag
     | none => false)

/-- The filtering step of `filterAndSortHunts` from `app.js`: the search
input is lowercased and all four criteria are ANDed. -/
def filteredHunts (searchInput category tactic tag : String)
    (huntsData : List Hunt) : List Hunt :=
  let searchTerm := lowerJS searchInput
  huntsData.filter fun hunt =>
    matchesSearchCriteria hunt searchTerm && matchesCategory hunt category &&
    matchesTactic hunt tactic && matchesTag hunt tag

/-! ### Catalog sort engine (`app.js` `sortHunts`) -/

/-- `String.prototype.charAt(0)` : the one-character string (as a char
list) holding the first character, or the empty string. -/
def charAt0 (s : String) : List Char := s.data.take 1

/-- Value of a maximal leading run of decimal digits; `none` when the run
is empty (which in JavaScript makes `parseInt` return `NaN`). -/
def digitsVal (cs : List Char) : Option Nat :=
  let ds := cs.takeWhile (·.isDigit)
  if ds.isEmpty then none
  else some (ds.foldl (fun n c => n * 10 + (c.toNat - 48)) 0)

/-- `parseInt(s, 10)`: skip leading whitespace, optional sign, then a
digit run; `none` models `NaN`. -/
def parseIntJS (s : String) : Option Int :=
  match s.data.dropWhile (·.isWhitespace) with
  | [] => none
  | c :: rest =>
    if c = '-' then (digitsVal rest).map (fun n => -(n : Int))
    else if c = '+' then (digitsVal rest).map (fun n => (n : Int))
    else (digitsVal (c :: rest)).map (fun n => (n : Int))

/-- The numeric sort key of a hunt: `parseInt(id.substring(1), 10)`. -/
def numOf (hunt : Hunt) : Option Int := parseIntJS ⟨hunt.id.data.drop 1⟩

/-- Sign-level model of `String.prototype.localeCompare` on the ASCII id
prefixes: lexicographic comparison by code point, returning -1/0/1. -/
def lexCmp : List Char → List Char → Int
  | [], [] => 0
  | [], _ :: _ => -1
  | _ :: _, [] => 1
  | a :: as, b :: bs =>
    if a < b then -1 else if b < a then 1 else lexCmp as bs

/-- The comparator closure of `sortHunts` in `app.js`.  `direction` is
`sortValue.split('-')[1]` (an `Option` since index 1 may be absent).
When a numeric suffix parses as `NaN`, the JavaScript subtraction yields
`NaN`, which ECMAScript `SortCompare` coerces to `+0`; that coercion is
applied here in the `NaN` match arms. -/
def huntComparator (direction : Option String) (a b : Hunt) : Int :=
  let letterA := charAt0 a.id
  let letterB := charAt0 b.id
  if letterA ≠ letterB then
    (if direction = some ("asc") then lexCmp letterA letterB else lexCmp letterB letterA)
  else
    match numOf a, numOf b with
    | some x, some y => if direction = some ("asc") then x - y else y - x
    | _, _ => 0

/-- `sortHunts` from `app.js`: a stable comparator sort of a copy of the
list. -/
def sortHunts (sortValue : String) (hunts : List Hunt) : List Hunt :=
  let direction := (splitJS sortValue ('-'))[1]?
  List.insertionSort (fun a b => huntComparator direction a b ≤ 0) hunts

/-- `filterAndSortHunts` from `app.js`: filter, then sort the filtered
view (the rendering step is not part of the data transformation). -/
def filterAndSortHunts (searchInput category tactic tag sortValue : String)
    (huntsData : List Hunt) : List Hunt :=
  sortHunts sortValue (filteredHunts searchInput category tactic tag huntsData)

/-! ### Chat intent router (`chat-widget.js` `processMessage`) -/

def searchKeywords : List String :=
  ["show me", "find", "search", "look for", "hunts for", "related to"]

def isSearchQuery (message : String) : Bool :=
  searchKeywords.any (fun keyword => containsJS message keyword)

def tacticKeywords : List String :=
  ["tactic", "persistence", "execution", "lateral movement", "exfiltration",
   "command and control"]

def isTacticQuery (message : String) : Bool :=
  tacticKeywords.any (fun keyword => containsJS message keyword)

def peakKeywords : List String :=
  ["peak", "flames", "embers", "alchemy", "framework", "category", "when to use"]

def isPeakFrameworkQuery (message : String) : Bool :=
  peakKeywords.any (fun keyword => containsJS message keyword)

def statsKeywords : List String :=
  ["how many", "count", "stats", "statistics", "total"]

def isStatsQuery (message : String) : Bool :=
  statsKeywords.any (fun keyword => containsJS message keyword)

def helpKeywords : List String :=
  ["help", "what can you do", "commands", "how to"]

def isHelpQuery (message : String) : Bool :=
  helpKeywords.any (fun keyword => containsJS message keyword)

/-- The six chat handlers a message can be routed to. -/
inductive Intent where
  | search
  | tacticExploration
  | peakFramework
  | stats
  | help
  | general
deriving DecidableEq, Repr

/-- The intent classification of `processMessage` in `chat-widget.js`:
the message is lowercased once and the five detectors are tried in
priority order, first match wins. -/
def processMessage (message : String) : Intent :=
  let lowerMessage := lowerJS message
  if isSearchQuery lowerMessage then .search
  else if isTacticQuery lowerMessage then .tacticExploration
  else if isPeakFrameworkQuery lowerMessage then .peakFramework
  else if isStatsQuery lowerMessage then .stats
  else if isHelpQuery lowerMessage then .help
  else .general

/-! ### Chat handlers (`chat-widget.js`)

The handlers dereference optional record fields without guards; a missing
field raises a `TypeError` in JavaScript, modelled as `.error ()`.
`filterE` models `Array.prototype.filter` when the predicate may throw:
elements are tested left to right and the first exception aborts. -/

def filterE {α : Type} (p : α → Except Unit Bool) : List α → Except Unit (List α)
  | [] => pure []
  | x :: xs => do
    let b ← p x
    let rest ← filterE p xs
    pure (if b then x :: rest else rest)

/-- The filter predicate of `searchHunts` in `chat-widget.js`, including
its JavaScript short-circuit evaluation: a match on an earlier field
prevents the `TypeError` that a later missing field would raise.  The
`notes` test alone is guarded (`hunt.notes && ...`). -/
def searchHuntsPred (lowerQuery : String) (hunt : Hunt) : Except Unit Bool :=
  if containsJS (lowerJS hunt.title) lowerQuery then pure true
  else do
    let tactic ← match hunt.tactic with
      | some t => pure t
      | none => Except.error ()
    if containsJS (lowerJS tactic) lowerQuery then pure true
    else do
      let tags ← match hunt.tags with
        | some ts => pure ts
        | none => Except.error ()
      if tags.any (fun tag => containsJS (lowerJS tag) lowerQuery) then pure true
      else do
        let submitter ← match hunt.submitter with
          | some s => pure s
          | none => Except.error ()
        if containsJS (lowerJS submitter.name) lowerQuery then pure true
        else
          match hunt.notes with
          | some n => pure (if n = "" then false else containsJS (lowerJS n) lowerQuery)
          | none => pure false

/-- The ranking score of `searchHunts`: 2 when the query occurs in the
title, 1 otherwise. -/
def titleScore (lowerQuery : String) (hunt : Hunt) : Int :=
  if containsJS (lowerJS hunt.title) lowerQuery then 2 else 1

/-- `searchHunts(query)` from `chat-widget.js`: filter on any of
title/tactic/tags/submitter/notes, then a stable comparator sort by
`bScore - aScore` (title matches first). -/
def searchHunts (query : String) (hunts : List Hunt) : Except Unit (List Hunt) := do
  let lowerQuery := lowerJS query
  let filtered ← filterE (searchHuntsPred lowerQuery) hunts
  pure (List.insertionSort
    (fun a b => titleScore lowerQuery b - titleScore lowerQuery a ≤ 0) filtered)

/-- Observable outcome of `handleHuntSearch`: either the fixed
"couldn't find any hunts" message, or the total match count, the (at
most 5) displayed results, and the count in the truncation note when
more than 5 matched. -/
inductive SearchReply where
  | notFound
  | found (total : Nat) (shown : List Hunt) (truncated : Option Nat)
deriving DecidableEq, Repr

/-- `handleHuntSearch` from `chat-widget.js`. -/
def handleHuntSearch (query : String) (hunts : List Hunt) : Except Unit SearchReply := do
  let results ← searchHunts query hunts
  if results.length = 0 then pure .notFound
  else pure (.found results.length (results.take 5)
    (if results.length > 5 then some (results.length - 5) else none))

/-- The fixed canonical tactic list of `extractTactic`. -/
def knownTactics : List String :=
  ["persistence", "execution", "lateral movement", "exfiltration",
   "command and control", "reconnaissance", "initial access", "defense evasion",
   "credential access", "discovery", "collection", "impact"]

/-- `extractTactic` from `chat-widget.js`: first canonical tactic that is
a substring of the lowercased message, else the literal `"unknown"`. -/
def extractTactic (message : String) : String :=
  (knownTactics.find? (fun t => containsJS (lowerJS message) t)).getD ("unknown")

/-- Observable outcome of `handleTacticExploration`. -/
inductive TacticReply where
  | noHunts (tactic : String)
  | found (tactic : String) (total : Nat) (shown : List Hunt)
deriving DecidableEq, Repr

/-- `handleTacticExploration` from `chat-widget.js`; the filter
dereferences `hunt.tactic` unguarded. -/
def handleTacticExploration (message : String) (hunts : List Hunt) :
    Except Unit TacticReply := do
  let tactic := extractTactic message
  let matched ← filterE (fun hunt =>
    match hunt.tactic with
    | some t => pure (containsJS (lowerJS t) (lowerJS tactic))
    | none => Except.error ()) hunts
  if matched.length = 0 then pure (.noHunts tactic)
  else pure (.found tactic matched.length (matched.take 3))

/-- Increment the count of key `k` in an association list, appending a
new entry when absent; models JavaScript object property update with
string-key insertion order. -/
def bumpCount : List (String × Nat) → String → List (String × Nat)
  | [], k => [(k, 1)]
  | (k', n) :: rest, k =>
    if k' = k then (k', n + 1) :: rest else (k', n) :: bumpCount rest k

/-- The result record of `generateStats` in `chat-widget.js`. -/
structure StatsResult where
  total : Nat
  flames : Nat
  embers : Nat
  alchemy : Nat
  topTactics : List (String × Nat)
  contributors : Nat
deriving DecidableEq, Repr

/-- `generateStats` from `chat-widget.js`: the tactic-count loop
dereferences `hunt.tactic` unguarded, and the contributor count
dereferences `hunt.submitter.name` unguarded; either missing field
raises.  `topTactics` is the stable descending-by-count sort of the
first-occurrence-ordered counts, truncated to 5; `contributors` is the
size of the `Set` of submitter names. -/
def generateStats (hunts : List Hunt) : Except Unit StatsResult := do
  let total := hunts.length
  let flames := (hunts.filter (fun h => h.category == "Flames")).length
  let embers := (hunts.filter (fun h => h.category == "Embers")).length
  let alchemy := (hunts.filter (fun h => h.category == "Alchemy")).length
  let tacticLists ← hunts.mapM (fun hunt =>
    match hunt.tactic with
    | some t => pure ((splitJS t (',')).map trimJS)
    | none => Except.error ())
  let counts := tacticLists.flatten.foldl bumpCount []
  let topTactics :=
    (List.insertionSort (fun p q => (q.2 : Int) - (p.2 : Int) ≤ 0) counts).take 5
  let names ← hunts.mapM (fun hunt =>
    match hunt.submitter with
    | some s => pure s.name
    | none => Except.error ())
  pure { total, flames, embers, alchemy, topTactics,
         contributors := names.dedup.length }

/-! ### Notebook document generator (`generateNotebook` / `generateNotebookContent`)

`generateNotebookContent` builds a Jupyter notebook whose first two
markdown cells carry all record-derived header material (Hunt ID, Hunt
Title, hypothesis, tactic, references, why); the later cells are static
analysis boilerplate and contain no line beginning with any of the
header prefixes used below for re-derivation.  The artifact is modelled
as the list of markdown source lines of those two cells; `timestamp`
and `dateStr` stand for `new Date().toISOString()` and
`new Date().toLocaleDateString()`. -/

/-- JavaScript `a || d` on a string `a`: the empty string is falsy. -/
def jsOrS (a d : String) : String := if a = "" then d else a

/-- JavaScript `a || d` where `a` is an optional string: `undefined` and
the empty string are both falsy. -/
def jsOrO (a : Option String) (d : String) : String :=
  match a with
  | some s => if s = "" then d else s
  | none => d

/-- The `huntData` object assembled by `generateNotebook` before
templating (fallback substitution, lines 968-979 of the source). -/
structure NotebookData where
  id : String
  title : String
  category : String
  hypothesis : String
  tactic : String
  tags : List String
  references : String
  why : String
  submitter : String
  file_path : Option String
deriving DecidableEq, Repr

/-- The fallback substitution of `generateNotebook`:
`title: hunt.title || hunt.notes || 'Untitled Hunt'`,
`hypothesis: hunt.notes || hunt.title || ''`, etc. -/
def notebookData (hunt : Hunt) : NotebookData :=
  { id := hunt.id
    title := jsOrS hunt.title (jsOrO hunt.notes ("Untitled Hunt"))
    category := hunt.category
    hypothesis := jsOrO hunt.notes (jsOrS hunt.title (""))
    tactic := jsOrO hunt.tactic ("")
    tags := hunt.tags.getD []
    references := jsOrO hunt.references ("")
    why := jsOrO hunt.why ("")
    submitter := (hunt.submitter.map Submitter.name).getD ("Unknown")
    file_path := hunt.file_path }

/-- The markdown source lines of the two header cells built by
`generateNotebookContent`, transcribed verbatim from the source. -/
def generateNotebookContent (timestamp dateStr : String) (d : NotebookData) :
    List String :=
  let huntTitle := jsOrS d.title ("Threat Hunting Notebook")
  ["*This notebook provides a structured and consistent way to document threat hunting activities using the PEAK Framework (Prepare, Execute, Act with Knowledge). It guides threat hunters through defining clear hypotheses, scoping the hunt precisely using the ABLE methodology, executing targeted queries, and documenting findings to ensure thorough and actionable results.*\n",
   "\n",
   "**Generated:** " ++ timestamp ++ "  \n",
   "**Source:** THOR Collective HEARTH Database  \n",
   "**Database:** https://hearth.thorcollective.com  \n",
   "**Framework:** PEAK (Prepare, Execute, Act with Knowledge)  \n",
   "**Template:** https://dispatch.thorcollective.com/p/the-peak-threat-hunting-template\n",
   "\n",
   "---\n",
   "\n",
   "# Threat Hunting Report - PEAK Framework\n",
   "\n",
   "## Hunt ID: " ++ d.id ++ "\n",
   "*(" ++ d.category ++ " - " ++
     (if d.category = ("Flames") then ("Hypothesis-driven")
      else if d.category = ("Embers") then ("Baseline")
      else ("Model-Assisted")) ++ ")*\n",
   "\n",
   "## Hunt Title: " ++ huntTitle,
   "---\n",
   "\n",
   "## PREPARE: Define the Hunt\n",
   "\n",
   "| **Hunt Information**            | **Details** |\n",
   "|----------------------------------|-------------|\n",
   "| **Hypothesis**                  | " ++ d.hypothesis ++ " |\n",
   "| **Threat Hunter Name**          | [Your Name] |\n",
   "| **Date**                        | " ++ dateStr ++ " |\n",
   "| **Requestor**                   | [Requestor Name] |\n",
   "| **Timeframe for hunt**          | [Expected Duration] |\n",
   "\n",
   "## Scoping with the ABLE Methodology\n",
   "\n",
   "*Clearly define your hunt scope using the ABLE framework. Replace all placeholders with relevant details for your scenario.*\n",
   "\n",
   "| **Field**   | **Description**                                                                                                                                                                                                                                                                             | **Your Input**                   |\n",
   "|-------------|---------------------------------------------------------------------------------------------------------------------------------------------------------------------------------------------------------------------------------------------------------------------------------------------|----------------------------------|\n",
   "| **Actor**   | *(Optional)* Identify the threat actor involved with the behavior, if applicable. This step is optional because hunts aren\x27t always tied to a specific actor. You may be investigating techniques used across multiple adversaries or looking for suspicious activity regardless of attribution. Focus on the what and how before the who, unless actor context adds meaningful value to the hunt.  | `[Threat Actor or N/A]`          |\n",
   "| **Behavior**| Describe the actions observed or expected, including tactics, techniques, and procedures (TTPs). Specify methods or tools involved.                                                                                                                                                 | `[Describe observed or expected behavior]` |\n",
   "| **Location**| Specify where the activity occurred, such as an endpoint, network segment, or cloud environment.                                                                                                                                 | `[Location]`            |\n",
   "| **Evidence**| Clearly list logs, artifacts, or telemetry supporting your hypothesis. For each source, provide critical fields required to validate the behavior, and include specific examples of observed or known malicious activity to illustrate expected findings. | `- Source: [Log Source]`<br>`- Key Fields: [Critical Fields]`<br>`- Example: [Expected Example of Malicious Activity]`<br><br>`- Source: [Additional Source]`<br>`- Key Fields: [Critical Fields]`<br>`- Example: [Expected Example of Malicious Activity]` |\n",
   "\n",
   "## Related Tickets (detection coverage, previous incidents, etc.)\n",
   "\n",
   "| **Role**                        | **Ticket and Other Details** |\n",
   "|----------------------------------|------------------------------|\n",
   "| **SOC/IR**                      | [Insert related ticket or incident details] |\n",
   "| **Threat Intel (TI)**            | [Insert related ticket] |\n",
   "| **Detection Engineering (DE)**   | [Insert related ticket] |\n",
   "| **Red Team / Pen Testing**       | [Insert related ticket] |\n",
   "| **Other**                        | [Insert related ticket] |\n",
   "\n",
   "## **Threat Intel & Research**\n",
   "- **MITRE ATT&CK Techniques:**\n",
   "  - `" ++ jsOrS d.tactic ("TAxxxx - Tactic Name") ++ "`\n",
   "  - `Txxxx - Technique Name`\n",
   "- **Related Reports, Blogs, or Threat Intel Sources:**\n",
   "  - " ++ jsOrS d.references ("[Link to references]") ++ "\n",
   "- **Historical Prevalence & Relevance:**\n",
   "  - " ++ jsOrS d.why ("*(Has this been observed before in your environment? Are there any detections/mitigations for this activity already in place?)*") ++ "\n",
   "\n",
   "---"]

/-- `generateNotebook(huntId)`: look the record up by id in the snapshot
(`HUNTS_DATA.find(h => h.id === huntId)`), throw when absent, otherwise
apply the fallback substitution and template the notebook. -/
def generateNotebook (huntsData : List Hunt) (huntId : String)
    (timestamp dateStr : String) : Except Unit (List String) :=
  match huntsData.find? (fun h => h.id == huntId) with
  | none => Except.error ()
  | some hunt => Except.ok (generateNotebookContent timestamp dateStr (notebookData hunt))

/-! ### Re-derivation of header fields from the artifact

`deriveField art pre suf` finds the first artifact line starting with
`pre` and strips `pre` and the trailing `suf` from it. -/

/-- Remove the last `n` characters. -/
def chopEnd (l : List Char) (n : Nat) : List Char := l.take (l.length - n)

/-- First line of the artifact beginning with `pre`, with `pre` and the
trailing `suf` removed. -/
def deriveField (artifact : List String) (pre suf : String) : Option String :=
  (artifact.find? (fun line => pre.data.isPrefixOf line.data)).map
    (fun line => ⟨chopEnd (line.data.drop pre.data.length) suf.data.length⟩)

def deriveHuntId (artifact : List String) : Option String :=
  deriveField artifact ("## Hunt ID: ") ("\n")

def deriveHuntTitle (artifact : List String) : Option String :=
  deriveField artifact ("## Hunt Title: ") ("")

def deriveTactic (artifact : List String) : Option String :=
  deriveField artifact ("  - `") ("`\n")

def deriveHypothesis (artifact : List String) : Option String :=
  deriveField artifact ("| **Hypothesis**                  | ") (" |\n")

/-! ### Well-formed ids and the composite sort key -/

/-- The letter+digits id shape assumed by the sort key ("H001", "B002",
...): one letter followed by a non-empty digit run. -/
def wfId (s : String) : Bool :=
  match s.data with
  | [] => false
  | c :: rest => c.isAlpha && !rest.isEmpty && rest.all (·.isDigit)

/-- The leading letter of a hunt id (spec side; the default is
irrelevant under `wfId`). -/
def leadLetterD (hunt : Hunt) : Char := hunt.id.data.headD ('?')

/-- The numeric suffix of a hunt id with default 0 (spec side; under
`wfId` the parse always succeeds). -/
def suffixVal (hunt : Hunt) : Int := (numOf hunt).getD 0

/-- The composite sort-key order stated by the spec: primary on the
leading letter (lexicographic), secondary on the numeric suffix
(numeric, so a 9 sorts before a 10). -/
def idKeyLe (a b : Hunt) : Prop :=
  leadLetterD a < leadLetterD b ∨
    (leadLetterD a = leadLetterD b ∧ suffixVal a ≤ suffixVal b)

/-- A record carrying only an id, as the sort key never reads any other
field. -/
def mkHunt (i : String) : Hunt :=
  ⟨i, "Flames", "", none, none, none, none, none, none, none⟩

/-- A snapshot record with `tactic` and `tags` absent, as used by the C5
and C7 failing inputs. -/
def huntNoTactic : Hunt :=
  ⟨"H001", "Flames", "Suspicious process activity", none, none, none,
   some ⟨"Sydney", none⟩, none, none, none⟩

/-- A record whose only searchable occurrence of `"find"` is its id
(the 4.1 concatenation includes the id; the chat search does not). -/
def huntIdOnlyMatch : Hunt :=
  ⟨"find", "Flames", "alpha", some ("beta"), none, some [], some ⟨"gamma", none⟩,
   none, none, none⟩

/-- The pure match predicate of `searchHunts` on records whose optional
fields are present (spec side, for comparison with `searchHuntsPred`). -/
def chatMatch (lowerQuery : String) (hunt : Hunt) : Bool :=
  containsJS (lowerJS hunt.title) lowerQuery ||
  (match hunt.tactic with
   | some t => containsJS (lowerJS t) lowerQuery
   | none => false) ||
  (match hunt.tags with
   | some ts => ts.any (fun tag => containsJS (lowerJS tag) lowerQuery)
   | none => false) ||
  (match hunt.submitter with
   | some s => containsJS (lowerJS s.name) lowerQuery
   | none => false) ||
  (match hunt.notes with
   | some n => if n = "" then false else containsJS (lowerJS n) lowerQuery
   | none => false)

/-- The two-bucket ranking of the chat search: title matches first, in
stable input order, then the remaining matches (spec side). -/
def chatSearchRanked (lowerQuery : String) (hunts : List Hunt) : List Hunt :=
  (hunts.filter (chatMatch lowerQuery)).filter
      (fun h => containsJS (lowerJS h.title) lowerQuery) ++
    (hunts.filter (chatMatch lowerQuery)).filter
      (fun h => !(containsJS (lowerJS h.title) lowerQuery))

/-- A snapshot record with all chat-searchable fields present. -/
def chatHunt (i ti ta : String) : Hunt :=
  ⟨i, "Flames", ti, some ta, none, some [], some ⟨"sub", none⟩, none, none, none⟩

/-- A record carrying only a category, as in the statistics example of
the spec (`[{category: Flames}, {category: Flames}, {category: Embers}]`). -/
def bareCategory (c : String) : Hunt :=
  ⟨"", c, "", none, none, none, none, none, none, none⟩


/-! ### Bridging lemmas for the string model -/

theorem containsJS_eq_true_iff {s sub : String} :
    containsJS s sub = true ↔ sub.data <:+: s.data := by
  unfold containsJS
  rw [List.any_eq_true]
  constructor
  · rintro ⟨t, ht, hp⟩
    rw [List.mem_tails] at ht
    rw [ List.isPrefixOf_iff_prefix] at hp
    exact List.infix_iff_prefix_suffix.mpr ⟨t, hp, ht⟩
  · intro h
    obtain ⟨t, hp, ht⟩ := List.infix_iff_prefix_suffix.mp h
    refine ⟨t, (List.mem_tails _ _).mpr ht, ?_⟩
    rw [ List.isPrefixOf_iff_prefix]
    exact hp

theorem lowerJS_eq_empty_iff {s : String} : lowerJS s = "" ↔ s = "" := by
  rw [String.ext_iff, String.ext_iff]
  show (s.data.map Char.toLower) = "".data ↔ _
  cases s with
  | mk l => cases l <;> simp

theorem matchesSearchCriteria_eq_true_iff (r : Hunt) (s : String) :
    matchesSearchCriteria r (lowerJS s) = true ↔
      (s = "" ∨ (lowerJS s).data <:+: (lowerJS (searchableContent r)).data) := by
  unfold matchesSearchCriteria
  by_cases h : s = ""
  · subst h
    simp [lowerJS_eq_empty_iff]
  · rw [if_neg (by rw [lowerJS_eq_empty_iff]; exact h)]
    rw [containsJS_eq_true_iff]
    exact (or_iff_right h).symm

/-- C1: for every hunt record `r` and search string `s`, the catalog
filter includes `r` under search term `s` (with the other three criteria
at their "any" defaults) iff `s` is empty or the lowercased searchable
concatenation of `r`'s id, title, tactic, notes, joined tags and
submitter name contains the lowercased `s` as a substring; moreover for
any criteria the filtered result is a sublist of the input snapshot, so
no new records are introduced. -/
theorem c1_search_filter_spec (s : String) (hunts : List Hunt) :
    (∀ category tactic tag, (filteredHunts s category tactic tag hunts).Sublist hunts) ∧
    (∀ r, r ∈ filteredHunts s ("") ("") ("") hunts ↔
      r ∈ hunts ∧ (s = "" ∨ (lowerJS s).data <:+: (lowerJS (searchableContent r)).data)) := by
  constructor
  · intro category tactic tag
    exact List.filter_sublist _
  · intro r
    show r ∈ List.filter _ hunts ↔ _
    rw [List.mem_filter]
    have hc : ∀ h : Hunt, matchesCategory h ("") = true := fun h => by
      simp [matchesCategory]
    have ht : ∀ h : Hunt, matchesTactic h ("") = true := fun h => by
      simp [matchesTactic]
    have hg : ∀ h : Hunt, matchesTag h ("") = true := fun h => by
      simp [matchesTag]
    simp only [hc, ht, hg, Bool.and_true]
    rw [matchesSearchCriteria_eq_true_iff]

/-- C3: any chat message containing one of the search trigger phrases is
routed to the search handler, regardless of which other keyword
categories (tactic, framework, statistics, help) also match, because the
search test is the first branch of `processMessage`. -/
theorem c3_search_intent_priority (message : String)
    (h : isSearchQuery (lowerJS message) = true) :
    processMessage message = Intent.search := by
  simp [processMessage, h]

/-- Witness for C3 at the spec's own example: `"show me persistence
hunts"` contains both the search trigger `"show me"` and the tactic
keyword `"persistence"`, and is routed to the search handler. -/
theorem c3_search_intent_priority_witness :
    isSearchQuery (lowerJS ("show me persistence hunts")) = true ∧
    isTacticQuery (lowerJS ("show me persistence hunts")) = true ∧
    processMessage ("show me persistence hunts") = Intent.search :=
  ⟨by decide, by decide, c3_search_intent_priority _ (by decide)⟩

/-! ### Generic lemmas about stable comparator sorts

The comparator of `sortHunts` is not transitive on malformed ids (a
`NaN` result ties with everything), so the Mathlib sortedness lemmas,
which require global `IsTrans`/`IsTotal` instances, do not apply; the
following localized variants assume totality and transitivity only on
the elements actually being sorted. -/

theorem pairwise_orderedInsert_local {α : Type} (r : α → α → Prop) [DecidableRel r]
    (a : α) (l : List α)
    (tot : ∀ x ∈ l, r a x ∨ r x a)
    (tr : ∀ x ∈ l, ∀ y ∈ l, r a x → r x y → r a y)
    (h : l.Pairwise r) : (l.orderedInsert r a).Pairwise r := by
  induction l with
  | nil => simp [List.orderedInsert]
  | cons b t ih =>
    rw [List.orderedInsert]
    by_cases hab : r a b
    · rw [if_pos hab]
      refine List.pairwise_cons.mpr ⟨?_, h⟩
      intro y hy
      rcases List.mem_cons.mp hy with rfl | hyt
      · exact hab
      · exact tr b (List.mem_cons_self _ _) y (List.mem_cons_of_mem _ hyt) hab
          ((List.pairwise_cons.mp h).1 y hyt)
    · rw [if_neg hab]
      refine List.pairwise_cons.mpr ⟨?_, ?_⟩
      · intro y hy
        rcases (List.mem_orderedInsert r).mp hy with rfl | hyt
        · rcases tot b (List.mem_cons_self _ _) with hr | hr
          · exact absurd hr hab
          · exact hr
        · exact (List.pairwise_cons.mp h).1 y hyt
      · exact ih (fun x hx => tot x (List.mem_cons_of_mem _ hx))
          (fun x hx y hy => tr x (List.mem_cons_of_mem _ hx) y (List.mem_cons_of_mem _ hy))
          (List.pairwise_cons.mp h).2

theorem pairwise_insertionSort_local {α : Type} (r : α → α → Prop) [DecidableRel r]
    (l : List α)
    (tot : ∀ a ∈ l, ∀ b ∈ l, r a b ∨ r b a)
    (tr : ∀ a ∈ l, ∀ b ∈ l, ∀ c ∈ l, r a b → r b c → r a c) :
    (l.insertionSort r).Pairwise r := by
  induction l with
  | nil => simp
  | cons a t ih =>
    rw [List.insertionSort]
    refine pairwise_orderedInsert_local r a _ ?_ ?_ ?_
    · intro x hx
      have hx' : x ∈ t := (List.mem_insertionSort r).mp hx
      exact tot a (List.mem_cons_self _ _) x (List.mem_cons_of_mem _ hx')
    · intro x hx y hy
      have hx' : x ∈ t := (List.mem_insertionSort r).mp hx
      have hy' : y ∈ t := (List.mem_insertionSort r).mp hy
      exact tr a (List.mem_cons_self _ _) x (List.mem_cons_of_mem _ hx')
        y (List.mem_cons_of_mem _ hy')
    · exact ih (fun x hx y hy => tot x (List.mem_cons_of_mem _ hx) y (List.mem_cons_of_mem _ hy))
        (fun x hx y hy z hz => tr x (List.mem_cons_of_mem _ hx) y (List.mem_cons_of_mem _ hy)
          z (List.mem_cons_of_mem _ hz))

/-- Two lists that are permutations of each other and both pairwise
`r`-increasing agree, provided `r` is antisymmetric on the elements of
the first. -/
theorem eq_of_perm_of_pairwise_local {α : Type} (r : α → α → Prop) {l₁ : List α} :
    ∀ {l₂ : List α}, l₁.Perm l₂ → l₁.Pairwise r → l₂.Pairwise r →
      (∀ a ∈ l₁, ∀ b ∈ l₁, r a b → r b a → a = b) → l₁ = l₂ := by
  induction l₁ with
  | nil =>
    intro l₂ hp _ _ _
    exact (hp.symm.eq_nil).symm
  | cons a t ih =>
    intro l₂ hp h₁ h₂ anti
    cases l₂ with
    | nil => exact absurd hp.eq_nil (by simp)
    | cons b t₂ =>
      have hab : a = b := by
        by_cases heq : a = b
        · exact heq
        · have hbmem : b ∈ a :: t := hp.symm.subset (List.mem_cons_self _ _)
          have hbt : b ∈ t := by
            rcases List.mem_cons.mp hbmem with h | h
            · exact absurd h.symm heq
            · exact h
          have hamem : a ∈ b :: t₂ := hp.subset (List.mem_cons_self _ _)
          have hat : a ∈ t₂ := by
            rcases List.mem_cons.mp hamem with h | h
            · exact absurd h heq
            · exact h
          exact anti a (List.mem_cons_self _ _) b (List.mem_cons_of_mem _ hbt)
            ((List.pairwise_cons.mp h₁).1 b hbt) ((List.pairwise_cons.mp h₂).1 a hat)
      subst hab
      have hp' : t.Perm t₂ := hp.cons_inv
      rw [ih hp' (List.pairwise_cons.mp h₁).2 (List.pairwise_cons.mp h₂).2
        (fun x hx y hy => anti x (List.mem_cons_of_mem _ hx) y (List.mem_cons_of_mem _ hy))]

/-! ### Comparator facts for `sortHunts` -/

theorem lexCmp_swap (a b : List Char) : lexCmp b a = -lexCmp a b := by
  induction a generalizing b with
  | nil => cases b <;> simp [lexCmp]
  | cons x xs ih =>
    cases b with
    | nil => simp [lexCmp]
    | cons y ys =>
      simp only [lexCmp]
      rcases lt_trichotomy x y with h | h | h
      · simp [h, asymm h]
      · subst h
        simp only [lt_irrefl, if_false]
        exact ih ys
      · simp [h, asymm h]

theorem huntComparator_of_letter_ne {direction : Option String} {a b : Hunt}
    (h : charAt0 a.id ≠ charAt0 b.id) :
    huntComparator direction a b =
      (if direction = some ("asc") then lexCmp (charAt0 a.id) (charAt0 b.id)
       else lexCmp (charAt0 b.id) (charAt0 a.id)) := by
  simp only [huntComparator]
  rw [if_pos h]

theorem huntComparator_of_letter_eq {direction : Option String} {a b : Hunt}
    (h : charAt0 a.id = charAt0 b.id) :
    huntComparator direction a b =
      (match numOf a, numOf b with
       | some x, some y => if direction = some ("asc") then x - y else y - x
       | _, _ => 0) := by
  simp only [huntComparator]
  rw [if_neg (fun hn => hn h)]

theorem huntComparator_swap (direction : Option String) (a b : Hunt) :
    huntComparator direction b a = -huntComparator direction a b := by
  by_cases h : charAt0 a.id = charAt0 b.id
  · rw [huntComparator_of_letter_eq h.symm, huntComparator_of_letter_eq h]
    rcases hna : numOf a with _ | x <;> rcases hnb : numOf b with _ | y
    · simp
    · simp
    · simp
    · simp only []
      split_ifs <;> ring
  · rw [huntComparator_of_letter_ne (Ne.symm h), huntComparator_of_letter_ne h]
    split_ifs <;> rw [lexCmp_swap]

/-- Any two hunts are comparable under the `sortHunts` relation: the
comparator and its swap are negations, so one of the two is `≤ 0`. -/
theorem huntComparator_total (direction : Option String) (a b : Hunt) :
    huntComparator direction a b ≤ 0 ∨ huntComparator direction b a ≤ 0 := by
  have h := huntComparator_swap direction a b
  omega

/-- For every direction other than `"asc"` the comparator is the exact
negation of the ascending one (both comparison levels are flipped). -/
theorem huntComparator_neg_of_ne_asc (direction : Option String)
    (hdir : direction ≠ some ("asc")) (a b : Hunt) :
    huntComparator direction a b = -huntComparator (some ("asc")) a b := by
  by_cases h : charAt0 a.id = charAt0 b.id
  · rw [huntComparator_of_letter_eq h, huntComparator_of_letter_eq h]
    rcases hna : numOf a with _ | x <;> rcases hnb : numOf b with _ | y
    · simp
    · simp
    · simp
    · simp only []
      rw [if_neg hdir, if_pos trivial]
      exact (neg_sub x y).symm
  · rw [huntComparator_of_letter_ne h, huntComparator_of_letter_ne h]
    rw [if_neg hdir, if_pos rfl]
    exact lexCmp_swap _ _

theorem idKeyLe_trans {a b c : Hunt} (h₁ : idKeyLe a b) (h₂ : idKeyLe b c) :
    idKeyLe a c := by
  rcases h₁ with h | ⟨he, hn⟩ <;> rcases h₂ with h' | ⟨he', hn'⟩
  · exact Or.inl (lt_trans h h')
  · exact Or.inl (he' ▸ h)
  · exact Or.inl (he ▸ h')
  · exact Or.inr ⟨he.trans he', le_trans hn hn'⟩

theorem not_whitespace_of_isDigit {c : Char} (h : c.isDigit = true) :
    c.isWhitespace = false := by
  rw [Bool.eq_false_iff]
  intro hw
  simp only [Char.isWhitespace, Bool.or_eq_true, decide_eq_true_eq] at hw
  rcases hw with ((rfl | rfl) | rfl) | rfl <;> revert h <;> decide

theorem isDigit_ne_signs {c : Char} (h : c.isDigit = true) :
    c ≠ '-' ∧ c ≠ '+' := by
  constructor <;> rintro rfl <;> revert h <;> decide

theorem parseIntJS_digits {c : Char} {rest : List Char} (hc : c.isDigit = true) :
    ∃ n : Nat, parseIntJS ⟨c :: rest⟩ = some ((n : Nat) : Int) := by
  have hw : (c :: rest).dropWhile (·.isWhitespace) = c :: rest := by
    rw [List.dropWhile_cons]
    simp [not_whitespace_of_isDigit hc]
  obtain ⟨hm, hp⟩ := isDigit_ne_signs hc
  refine ⟨(c :: rest.takeWhile (·.isDigit)).foldl (fun n ch => n * 10 + (ch.toNat - 48)) 0, ?_⟩
  unfold parseIntJS
  rw [show (String.mk (c :: rest)).data = c :: rest from rfl, hw]
  simp only []
  rw [if_neg hm, if_neg hp]
  unfold digitsVal
  rw [List.takeWhile_cons, if_pos hc]
  simp

/-- Decomposition of a well-formed id: the leading letter is the single
`charAt(0)` character and the numeric suffix parses. -/
theorem wfId_parts {hunt : Hunt} (hw : wfId hunt.id = true) :
    ∃ c rest, hunt.id.data = c :: rest ∧ charAt0 hunt.id = [c] ∧
      leadLetterD hunt = c ∧ ∃ n : Nat, numOf hunt = some ((n : Nat) : Int) := by
  unfold wfId at hw
  rcases hid : hunt.id.data with _ | ⟨c, rest⟩
  · rw [hid] at hw
    simp at hw
  · rw [hid] at hw
    simp only [Bool.and_eq_true, Bool.not_eq_true', List.all_eq_true] at hw
    obtain ⟨⟨_, hne⟩, hdig⟩ := hw
    refine ⟨c, rest, rfl, ?_, ?_, ?_⟩
    · unfold charAt0
      rw [hid]
      rfl
    · unfold leadLetterD
      rw [hid]
      rfl
    · unfold numOf
      rw [hid]
      rcases rest with _ | ⟨d, rest'⟩
      · simp at hne
      · exact parseIntJS_digits (hdig d (List.mem_cons_self _ _))

/-- On well-formed ids the ascending comparator relation is exactly the
composite key order. -/
theorem ascLe_iff_idKeyLe {a b : Hunt} (ha : wfId a.id = true) (hb : wfId b.id = true) :
    huntComparator (some ("asc")) a b ≤ 0 ↔ idKeyLe a b := by
  obtain ⟨ca, ra, hida, hcha, hla, na, hna⟩ := wfId_parts ha
  obtain ⟨cb, rb, hidb, hchb, hlb, nb, hnb⟩ := wfId_parts hb
  by_cases hl : ca = cb
  · rw [huntComparator_of_letter_eq (by rw [hcha, hchb, hl])]
    rw [hna, hnb]
    simp only []
    rw [if_pos trivial]
    unfold idKeyLe suffixVal
    rw [hla, hlb, hl, hna, hnb]
    simp only [Option.getD_some]
    constructor
    · intro hc
      exact Or.inr ⟨by trivial, by omega⟩
    · rintro (hlt | ⟨heq, hle⟩)
      · exact absurd hlt (lt_irrefl _)
      · omega
  · rw [huntComparator_of_letter_ne (by rw [hcha, hchb]; simp [hl])]
    rw [if_pos rfl, hcha, hchb]
    unfold idKeyLe
    rw [hla, hlb]
    unfold lexCmp
    rcases lt_trichotomy ca cb with h | h | h
    · rw [if_pos h]
      simp only [h, true_or, iff_true]
      omega
    · exact absurd h hl
    · rw [if_neg (asymm h), if_pos h]
      simp only [not_lt_of_gt h, false_or]
      constructor
      · intro hc
        omega
      · rintro ⟨he, _⟩
        exact absurd he hl

/-- On well-formed ids the non-ascending comparator relation is exactly
the flipped composite key order. -/
theorem descLe_iff_idKeyLe {a b : Hunt} (ha : wfId a.id = true) (hb : wfId b.id = true) :
    huntComparator (some ("desc")) a b ≤ 0 ↔ idKeyLe b a := by
  rw [huntComparator_neg_of_ne_asc (some ("desc")) (by decide) a b]
  rw [← huntComparator_swap]
  exact ascLe_iff_idKeyLe hb ha

theorem sortHunts_asc_def (l : List Hunt) :
    sortHunts ("id-asc") l =
      List.insertionSort (fun a b => huntComparator (some ("asc")) a b ≤ 0) l := rfl

theorem sortHunts_desc_def (l : List Hunt) :
    sortHunts ("id-desc") l =
      List.insertionSort (fun a b => huntComparator (some ("desc")) a b ≤ 0) l := rfl

theorem sortHunts_asc_perm (l : List Hunt) : (sortHunts ("id-asc") l).Perm l := by
  rw [sortHunts_asc_def]
  exact List.perm_insertionSort _ l

theorem sortHunts_desc_perm (l : List Hunt) : (sortHunts ("id-desc") l).Perm l := by
  rw [sortHunts_desc_def]
  exact List.perm_insertionSort _ l

theorem sortHunts_asc_pairwise_rel (l : List Hunt) (hwf : ∀ x ∈ l, wfId x.id = true) :
    (sortHunts ("id-asc") l).Pairwise
      (fun a b => huntComparator (some ("asc")) a b ≤ 0) := by
  rw [sortHunts_asc_def]
  exact pairwise_insertionSort_local _ l
    (fun a _ b _ => huntComparator_total _ a b)
    (fun a haa b hbb c hcc hab hbc =>
      (ascLe_iff_idKeyLe (hwf a haa) (hwf c hcc)).mpr
        (idKeyLe_trans ((ascLe_iff_idKeyLe (hwf a haa) (hwf b hbb)).mp hab)
          ((ascLe_iff_idKeyLe (hwf b hbb) (hwf c hcc)).mp hbc)))

theorem sortHunts_desc_pairwise_rel (l : List Hunt) (hwf : ∀ x ∈ l, wfId x.id = true) :
    (sortHunts ("id-desc") l).Pairwise
      (fun a b => huntComparator (some ("desc")) a b ≤ 0) := by
  rw [sortHunts_desc_def]
  exact pairwise_insertionSort_local _ l
    (fun a _ b _ => huntComparator_total _ a b)
    (fun a haa b hbb c hcc hab hbc =>
      (descLe_iff_idKeyLe (hwf a haa) (hwf c hcc)).mpr
        (idKeyLe_trans ((descLe_iff_idKeyLe (hwf b hbb) (hwf c hcc)).mp hbc)
          ((descLe_iff_idKeyLe (hwf a haa) (hwf b hbb)).mp hab)))

/-- C2: on a list of hunts whose ids all have the letter+digits shape,
`sortHunts` with the ascending direction returns a permutation of the
input ordered by the composite key (leading letter lexicographic, then
numeric suffix compared numerically, so a 9 sorts before a 10), and the
descending direction returns a permutation ordered by the key flipped
at both levels consistently. -/
theorem c2_sort_composite_key (l : List Hunt) (hwf : ∀ x ∈ l, wfId x.id = true) :
    (sortHunts ("id-asc") l).Perm l ∧
    (sortHunts ("id-asc") l).Pairwise idKeyLe ∧
    (sortHunts ("id-desc") l).Perm l ∧
    (sortHunts ("id-desc") l).Pairwise (fun a b => idKeyLe b a) := by
  refine ⟨sortHunts_asc_perm l, ?_, sortHunts_desc_perm l, ?_⟩
  · exact (sortHunts_asc_pairwise_rel l hwf).imp_of_mem (fun {x y} hx hy hr =>
      (ascLe_iff_idKeyLe (hwf x ((sortHunts_asc_perm l).subset hx))
        (hwf y ((sortHunts_asc_perm l).subset hy))).mp hr)
  · exact (sortHunts_desc_pairwise_rel l hwf).imp_of_mem (fun {x y} hx hy hr =>
      (descLe_iff_idKeyLe (hwf x ((sortHunts_desc_perm l).subset hx))
        (hwf y ((sortHunts_desc_perm l).subset hy))).mp hr)

/-- Witness for C2 on a concrete snapshot: `H9` sorts before `H010`
(numeric, not lexicographic) and `B002` before both. -/
theorem c2_sort_composite_key_witness :
    (∀ x ∈ [mkHunt ("H010"), mkHunt ("H9"), mkHunt ("B002")], wfId x.id = true) ∧
    ((sortHunts ("id-asc") [mkHunt ("H010"), mkHunt ("H9"), mkHunt ("B002")]).Perm
        [mkHunt ("H010"), mkHunt ("H9"), mkHunt ("B002")] ∧
      (sortHunts ("id-asc") [mkHunt ("H010"), mkHunt ("H9"), mkHunt ("B002")]).Pairwise idKeyLe ∧
      (sortHunts ("id-desc") [mkHunt ("H010"), mkHunt ("H9"), mkHunt ("B002")]).Perm
        [mkHunt ("H010"), mkHunt ("H9"), mkHunt ("B002")] ∧
      (sortHunts ("id-desc") [mkHunt ("H010"), mkHunt ("H9"), mkHunt ("B002")]).Pairwise
        (fun a b => idKeyLe b a)) :=
  ⟨by decide, c2_sort_composite_key _ (by decide)⟩

/-- Counterexample for C4: the claim requires the comparator to order an
unparsable suffix greater than every parsed number; on the code the
`NaN` comparison is coerced to `+0`, so `HX` ties with `H5` instead of
exceeding it, and the relation `comparator ≤ 0` is not transitive
(`H7 ≼ HX` and `HX ≼ H5` but not `H7 ≼ H5`), hence not a total order. -/
theorem c4_counterexample :
    numOf (mkHunt ("HX")) = none ∧
    huntComparator (some ("asc")) (mkHunt ("HX")) (mkHunt ("H5")) = 0 ∧
    huntComparator (some ("asc")) (mkHunt ("H7")) (mkHunt ("HX")) ≤ 0 ∧
    huntComparator (some ("asc")) (mkHunt ("HX")) (mkHunt ("H5")) ≤ 0 ∧
    ¬ huntComparator (some ("asc")) (mkHunt ("H7")) (mkHunt ("H5")) ≤ 0 := by
  decide

/-- C4 (amended): `sortHunts` never throws on malformed ids — it is a
total function that always returns a (stable) permutation of its input,
for every direction value — but comparisons whose numeric parse yields
`NaN` are coerced to ties rather than ordered greater, so the comparator
does not define a total order. -/
theorem c4_sort_total_on_malformed (sortValue : String) (hunts : List Hunt) :
    (sortHunts sortValue hunts).Perm hunts := by
  unfold sortHunts
  exact List.perm_insertionSort _ hunts

/-- Counterexample for C8: `"H01"` and `"H1"` are well-formed, distinct
ids with the same sort key (letter `H`, number 1); the stable sort keeps
their input order in both directions, so descending is not the reverse
of ascending. -/
theorem c8_counterexample :
    (mkHunt ("H01")).id ≠ (mkHunt ("H1")).id ∧
    wfId ((mkHunt ("H01")).id) = true ∧
    wfId ((mkHunt ("H1")).id) = true ∧
    sortHunts ("id-desc") [mkHunt ("H01"), mkHunt ("H1")] ≠
      (sortHunts ("id-asc") [mkHunt ("H01"), mkHunt ("H1")]).reverse := by
  decide

/-- C8 (amended): on well-formed ids whose (leading letter, numeric
suffix) sort keys are pairwise distinct, sorting is idempotent in both
directions and the descending sort is exactly the reverse of the
ascending sort. -/
theorem c8_sort_idempotent_and_reverse (l : List Hunt)
    (hwf : ∀ x ∈ l, wfId x.id = true)
    (hinj : ∀ a ∈ l, ∀ b ∈ l,
      leadLetterD a = leadLetterD b → suffixVal a = suffixVal b → a = b) :
    sortHunts ("id-asc") (sortHunts ("id-asc") l) = sortHunts ("id-asc") l ∧
    sortHunts ("id-desc") (sortHunts ("id-desc") l) = sortHunts ("id-desc") l ∧
    sortHunts ("id-desc") l = (sortHunts ("id-asc") l).reverse := by
  refine ⟨?_, ?_, ?_⟩
  · rw [sortHunts_asc_def (sortHunts ("id-asc") l)]
    exact List.Sorted.insertionSort_eq (sortHunts_asc_pairwise_rel l hwf)
  · rw [sortHunts_desc_def (sortHunts ("id-desc") l)]
    exact List.Sorted.insertionSort_eq (sortHunts_desc_pairwise_rel l hwf)
  · have himp : ∀ {a b : Hunt}, huntComparator (some ("desc")) a b ≤ 0 →
        huntComparator (some ("asc")) b a ≤ 0 := by
      intro a b h
      have h1 := huntComparator_neg_of_ne_asc (some ("desc")) (by decide) a b
      have h2 := huntComparator_swap (some ("asc")) a b
      omega
    have hrev : (sortHunts ("id-desc") l).reverse = sortHunts ("id-asc") l := by
      refine eq_of_perm_of_pairwise_local
        (fun a b => huntComparator (some ("asc")) a b ≤ 0) ?_ ?_ ?_ ?_
      · exact ((sortHunts ("id-desc") l).reverse_perm).trans
          ((sortHunts_desc_perm l).trans (sortHunts_asc_perm l).symm)
      · rw [List.pairwise_reverse]
        exact (sortHunts_desc_pairwise_rel l hwf).imp himp
      · exact sortHunts_asc_pairwise_rel l hwf
      · intro a hamem b hbmem hab hba
        have hal : a ∈ l := (sortHunts_desc_perm l).subset
          (((sortHunts ("id-desc") l).reverse_perm).subset hamem)
        have hbl : b ∈ l := (sortHunts_desc_perm l).subset
          (((sortHunts ("id-desc") l).reverse_perm).subset hbmem)
        have hk1 := (ascLe_iff_idKeyLe (hwf a hal) (hwf b hbl)).mp hab
        have hk2 := (ascLe_iff_idKeyLe (hwf b hbl) (hwf a hal)).mp hba
        rcases hk1 with h | ⟨he, hn⟩
        · rcases hk2 with h' | ⟨he', _⟩
          · exact absurd (lt_trans h h') (lt_irrefl _)
          · exact absurd (he' ▸ h) (lt_irrefl _)
        · rcases hk2 with h' | ⟨he', hn'⟩
          · exact absurd (he ▸ h') (lt_irrefl _)
          · exact hinj a hal b hbl he (le_antisymm hn hn')
    rw [← hrev, List.reverse_reverse]

/-- Witness for C8 (amended) on a concrete snapshot with distinct keys. -/
theorem c8_sort_idempotent_and_reverse_witness :
    (∀ x ∈ [mkHunt ("B002"), mkHunt ("H010"), mkHunt ("H9")], wfId x.id = true) ∧
    (∀ a ∈ [mkHunt ("B002"), mkHunt ("H010"), mkHunt ("H9")],
      ∀ b ∈ [mkHunt ("B002"), mkHunt ("H010"), mkHunt ("H9")],
        leadLetterD a = leadLetterD b → suffixVal a = suffixVal b → a = b) ∧
    (sortHunts ("id-asc") (sortHunts ("id-asc")
        [mkHunt ("B002"), mkHunt ("H010"), mkHunt ("H9")]) =
      sortHunts ("id-asc") [mkHunt ("B002"), mkHunt ("H010"), mkHunt ("H9")] ∧
    sortHunts ("id-desc") (sortHunts ("id-desc")
        [mkHunt ("B002"), mkHunt ("H010"), mkHunt ("H9")]) =
      sortHunts ("id-desc") [mkHunt ("B002"), mkHunt ("H010"), mkHunt ("H9")] ∧
    sortHunts ("id-desc") [mkHunt ("B002"), mkHunt ("H010"), mkHunt ("H9")] =
      (sortHunts ("id-asc") [mkHunt ("B002"), mkHunt ("H010"), mkHunt ("H9")]).reverse) :=
  ⟨by decide, by decide, c8_sort_idempotent_and_reverse _ (by decide) (by decide)⟩

/-- C5: the spec requires the chat handlers to treat an absent
`tactic`/`tags` field as empty and never throw; on a record whose
`tactic` and `tags` are absent, all three handlers dereference the
missing field and raise (a JavaScript `TypeError`, modelled as
`.error ()`). -/
theorem c5_handlers_throw_on_missing_fields :
    handleTacticExploration ("what hunts target persistence?") [huntNoTactic] =
      Except.error () ∧
    searchHunts ("persistence") [huntNoTactic] = Except.error () ∧
    generateStats [huntNoTactic] = Except.error () := by
  decide

/-- Counterexample for C6: for the message `"find"` (a search trigger),
the section-4.1 algorithm matches the record via its id, but the chat
search handler — which tests only title, tactic, tags, submitter and
notes — reports the fixed not-found outcome. -/
theorem c6_counterexample :
    matchesSearchCriteria huntIdOnlyMatch (lowerJS ("find")) = true ∧
    handleHuntSearch ("find") [huntIdOnlyMatch] = Except.ok SearchReply.notFound := by
  decide

theorem searchHuntsPred_ok {q : String} {h : Hunt}
    (ht : h.tactic ≠ none) (hg : h.tags ≠ none) (hs : h.submitter ≠ none) :
    searchHuntsPred q h = Except.ok (chatMatch q h) := by
  rcases h with ⟨i, cat, title, tac, notes, tags, sub, why, refs, fp⟩
  rcases tac with _ | t
  · exact absurd rfl ht
  rcases tags with _ | ts
  · exact absurd rfl hg
  rcases sub with _ | s
  · exact absurd rfl hs
  simp only [searchHuntsPred, chatMatch, pure_bind]
  rcases notes with _ | n <;>
    cases h1 : containsJS (lowerJS title) q <;>
    cases h2 : containsJS (lowerJS t) q <;>
    cases h3 : ts.any (fun tag => containsJS (lowerJS tag) q) <;>
    cases h4 : containsJS (lowerJS s.name) q <;>
    simp only [h1, h2, h3, h4, if_true, if_false, Bool.false_or, Bool.true_or,
      Bool.or_true, Bool.or_false, pure_bind] <;>
    rfl

theorem filterE_ok {α : Type} (p : α → Except Unit Bool) (f : α → Bool) (l : List α)
    (h : ∀ x ∈ l, p x = Except.ok (f x)) :
    filterE p l = Except.ok (l.filter f) := by
  induction l with
  | nil => rfl
  | cons x xs ih =>
    show (do
      let b ← p x
      let rest ← filterE p xs
      pure (if b then x :: rest else rest) : Except Unit (List α)) = _
    rw [h x (List.mem_cons_self _ _), ih (fun y hy => h y (List.mem_cons_of_mem _ hy))]
    rw [List.filter_cons]
    by_cases hf : f x <;> simp only [hf, if_pos, if_true, if_false] <;> rfl

theorem orderedInsert_eq_cons {α : Type} (r : α → α → Prop) [DecidableRel r] (x : α)
    (l : List α) (h : ∀ y ∈ l, r x y) : l.orderedInsert r x = x :: l := by
  cases l with
  | nil => rfl
  | cons b t => rw [List.orderedInsert, if_pos (h b (List.mem_cons_self _ _))]

theorem orderedInsert_append_of_not {α : Type} (r : α → α → Prop) [DecidableRel r] (x : α)
    (A B : List α) (h : ∀ a ∈ A, ¬ r x a) :
    (A ++ B).orderedInsert r x = A ++ B.orderedInsert r x := by
  induction A with
  | nil => rfl
  | cons a t ih =>
    rw [List.cons_append, List.orderedInsert, if_neg (h a (List.mem_cons_self _ _)),
      ih (fun y hy => h y (List.mem_cons_of_mem _ hy)), List.cons_append]

/-- A stable comparator sort by a two-valued descending score is exactly
the stable two-bucket partition: score-2 elements first, both buckets in
input order. -/
theorem insertionSort_two_bucket {α : Type} (score : α → Int) (p : α → Bool)
    (hs : ∀ a, score a = if p a then 2 else 1) (l : List α) :
    List.insertionSort (fun a b => score b - score a ≤ 0) l
      = l.filter p ++ l.filter (fun a => !(p a)) := by
  induction l with
  | nil => rfl
  | cons x xs ih =>
    rw [List.insertionSort, ih]
    by_cases hx : p x = true
    · rw [orderedInsert_eq_cons _ _ _ (fun y _ => by
        show score y - score x ≤ 0
        rw [hs y, hs x, if_pos hx]
        split_ifs <;> decide)]
      rw [List.filter_cons, List.filter_cons]
      simp [hx]
    · have hx' : p x = false := by
        cases hpx : p x
        · rfl
        · exact absurd hpx hx
      rw [orderedInsert_append_of_not _ _ _ _ (fun a ha => by
        have hpa : p a = true := (List.mem_filter.mp ha).2
        show ¬ score a - score x ≤ 0
        rw [hs a, hs x, if_pos hpa, if_neg (by simp [hx'])]
        decide)]
      rw [orderedInsert_eq_cons _ _ _ (fun y hy => by
        have hpy : (!(p y)) = true := (List.mem_filter.mp hy).2
        have hpy' : p y = false := by
          cases hqy : p y
          · rfl
          · rw [hqy] at hpy
            exact absurd hpy (by decide)
        show score y - score x ≤ 0
        rw [hs y, hs x, if_neg (by simp [hpy']), if_neg (by simp [hx'])]
        decide)]
      rw [List.filter_cons, List.filter_cons]
      simp [hx']

theorem searchHunts_ok (query : String) (hunts : List Hunt)
    (hfields : ∀ h ∈ hunts, h.tactic ≠ none ∧ h.tags ≠ none ∧ h.submitter ≠ none) :
    searchHunts query hunts = Except.ok (chatSearchRanked (lowerJS query) hunts) := by
  unfold searchHunts
  simp only []
  rw [filterE_ok (searchHuntsPred (lowerJS query)) (chatMatch (lowerJS query)) hunts
    (fun x hx =>
      searchHuntsPred_ok (hfields x hx).1 (hfields x hx).2.1 (hfields x hx).2.2)]
  show Except.ok (List.insertionSort
      (fun a b => titleScore (lowerJS query) b - titleScore (lowerJS query) a ≤ 0)
      (List.filter (chatMatch (lowerJS query)) hunts)) =
    Except.ok (chatSearchRanked (lowerJS query) hunts)
  unfold chatSearchRanked
  rw [insertionSort_two_bucket (titleScore (lowerJS query))
    (fun h => containsJS (lowerJS h.title) (lowerJS query)) (fun a => rfl)]

/-- C6 (amended): for snapshots whose records carry `tactic`, `tags` and
`submitter`, the search handler matches the lowercased full message as a
substring of title, tactic, each tag, submitter name, or non-empty notes
(not of the id, and not of the 4.1 concatenation); it reports the fixed
not-found outcome exactly when zero records match, otherwise shows the
first five of the matches ranked by the stable two-bucket partition
(title matches first) and emits a truncation count exactly when more
than five match. -/
theorem c6_search_handler_spec (query : String) (hunts : List Hunt)
    (hfields : ∀ h ∈ hunts, h.tactic ≠ none ∧ h.tags ≠ none ∧ h.submitter ≠ none) :
    handleHuntSearch query hunts = Except.ok
      (if (hunts.filter (chatMatch (lowerJS query))).length = 0 then SearchReply.notFound
       else SearchReply.found (hunts.filter (chatMatch (lowerJS query))).length
         ((chatSearchRanked (lowerJS query) hunts).take 5)
         (if (hunts.filter (chatMatch (lowerJS query))).length > 5
          then some ((hunts.filter (chatMatch (lowerJS query))).length - 5) else none)) := by
  unfold handleHuntSearch
  rw [searchHunts_ok query hunts hfields]
  have hlen : (chatSearchRanked (lowerJS query) hunts).length =
      (hunts.filter (chatMatch (lowerJS query))).length := by
    have hperm : (chatSearchRanked (lowerJS query) hunts).Perm
        (hunts.filter (chatMatch (lowerJS query))) := by
      unfold chatSearchRanked
      rw [← insertionSort_two_bucket (titleScore (lowerJS query))
        (fun h => containsJS (lowerJS h.title) (lowerJS query)) (fun a => rfl)]
      exact List.perm_insertionSort _ _
    exact hperm.length_eq
  show (if (chatSearchRanked (lowerJS query) hunts).length = 0
      then pure SearchReply.notFound
      else pure (SearchReply.found (chatSearchRanked (lowerJS query) hunts).length
        ((chatSearchRanked (lowerJS query) hunts).take 5)
        (if (chatSearchRanked (lowerJS query) hunts).length > 5
         then some ((chatSearchRanked (lowerJS query) hunts).length - 5) else none))) = _
  rw [hlen]
  split_ifs <;> rfl

/-- Witness for C6 (amended): query `"x"` over a two-record snapshot;
the title match is ranked ahead of the tactic match. -/
theorem c6_search_handler_spec_witness :
    (∀ h ∈ [chatHunt ("H001") ("ax") ("t"), chatHunt ("H002") ("b") ("x")],
      h.tactic ≠ none ∧ h.tags ≠ none ∧ h.submitter ≠ none) ∧
    handleHuntSearch ("x") [chatHunt ("H001") ("ax") ("t"), chatHunt ("H002") ("b") ("x")] =
      Except.ok
        (if ([chatHunt ("H001") ("ax") ("t"), chatHunt ("H002") ("b") ("x")].filter
            (chatMatch (lowerJS ("x")))).length = 0 then SearchReply.notFound
         else SearchReply.found
           ([chatHunt ("H001") ("ax") ("t"), chatHunt ("H002") ("b") ("x")].filter
             (chatMatch (lowerJS ("x")))).length
           ((chatSearchRanked (lowerJS ("x"))
             [chatHunt ("H001") ("ax") ("t"), chatHunt ("H002") ("b") ("x")]).take 5)
           (if ([chatHunt ("H001") ("ax") ("t"), chatHunt ("H002") ("b") ("x")].filter
               (chatMatch (lowerJS ("x")))).length > 5
            then some (([chatHunt ("H001") ("ax") ("t"),
              chatHunt ("H002") ("b") ("x")].filter
                (chatMatch (lowerJS ("x")))).length - 5) else none)) :=
  ⟨by decide, c6_search_handler_spec _ _ (by decide)⟩

/-- C7, evaluated at the spec's own example snapshot: instead of
reporting `Flames: 2, Embers: 1, Alchemy: 0`, total 3, the handler
dereferences the absent `tactic` field (`hunt.tactic.split`) and
raises. -/
theorem c7_stats_throws_on_spec_example :
    generateStats
        [bareCategory ("Flames"), bareCategory ("Flames"), bareCategory ("Embers")] =
      Except.error () := by
  decide

theorem mapM_ok {α β : Type} (f : α → Except Unit β) (g : α → β) (l : List α)
    (h : ∀ x ∈ l, f x = Except.ok (g x)) : l.mapM f = Except.ok (l.map g) := by
  induction l with
  | nil => rfl
  | cons x xs ih =>
    rw [List.mapM_cons, h x (List.mem_cons_self _ _),
      List.map_cons]
    show (Except.ok (g x) >>= fun hd => xs.mapM f >>= fun tl => pure (hd :: tl)) = _
    rw [show ∀ (k : β → Except Unit (List β)), Except.ok (g x) >>= k = k (g x)
      from fun k => rfl]
    rw [ih (fun y hy => h y (List.mem_cons_of_mem _ hy))]
    rfl

/-- On a snapshot whose records all carry `tactic` and `submitter`,
`generateStats` succeeds and reports exactly the counts of the spec:
the snapshot length, the three per-category counts, the top-5 stable
descending tactic frequencies (split on comma, trimmed, counted in
first-occurrence order), and the distinct-submitter count.  (This is
the content of C7 on non-throwing snapshots; C7 itself fails on its own
example input, see `c7_stats_throws_on_spec_example`.) -/
theorem generateStats_of_fields_present (hunts : List Hunt)
    (hfields : ∀ h ∈ hunts, h.tactic ≠ none ∧ h.submitter ≠ none) :
    generateStats hunts = Except.ok
      { total := hunts.length
        flames := (hunts.filter (fun h => h.category == "Flames")).length
        embers := (hunts.filter (fun h => h.category == "Embers")).length
        alchemy := (hunts.filter (fun h => h.category == "Alchemy")).length
        topTactics := (List.insertionSort (fun p q => (q.2 : Int) - (p.2 : Int) ≤ 0)
          ((hunts.map (fun h => (splitJS (h.tactic.getD ("")) (',')).map trimJS)).flatten.foldl
            bumpCount [])).take 5
        contributors := (hunts.map (fun h => (h.submitter.map Submitter.name).getD (""))).dedup.length } := by
  unfold generateStats
  rw [mapM_ok _ (fun h => (splitJS (h.tactic.getD ("")) (',')).map trimJS) hunts
    (fun x hx => by
      rcases hx' : x.tactic with _ | t
      · exact absurd hx' (hfields x hx).1
      · simp only [hx']
        rfl)]
  show (Except.ok ((hunts.map (fun h => (splitJS (h.tactic.getD ("")) (',')).map trimJS))) >>=
    fun tacticLists => _) = _
  rw [show ∀ (k : List (List String) → Except Unit StatsResult),
    Except.ok (hunts.map (fun h => (splitJS (h.tactic.getD ("")) (',')).map trimJS)) >>= k =
      k (hunts.map (fun h => (splitJS (h.tactic.getD ("")) (',')).map trimJS)) from fun k => rfl]
  rw [mapM_ok _ (fun h => (h.submitter.map Submitter.name).getD ("")) hunts
    (fun x hx => by
      rcases hx' : x.submitter with _ | s
      · exact absurd hx' (hfields x hx).2
      · simp only [hx']
        rfl)]
  rfl

/-! ### Re-derivation lemmas for the notebook artifact -/

theorem isPrefixOf_head_false {pre a : String} (rest : List Char)
    (h1 : ¬ pre.data <+: a.data) (h2 : ¬ a.data <+: pre.data) :
    pre.data.isPrefixOf (a.data ++ rest) = false := by
  rw [Bool.eq_false_iff]
  intro hc
  rw [ List.isPrefixOf_iff_prefix] at hc
  rcases List.prefix_or_prefix_of_prefix hc (List.prefix_append a.data rest) with h | h
  · exact h1 h
  · exact h2 h

theorem isPrefixOf_self_append (pre : String) (rest : List Char) :
    pre.data.isPrefixOf (pre.data ++ rest) = true := by
  rw [ List.isPrefixOf_iff_prefix]
  exact List.prefix_append _ _

theorem chop_mid (pre mid suf : String) :
    chopEnd (((pre ++ mid ++ suf).data).drop pre.data.length) suf.data.length = mid.data := by
  show chopEnd (((pre.data ++ mid.data) ++ suf.data).drop pre.data.length) suf.data.length
    = mid.data
  rw [List.append_assoc, List.drop_left]
  unfold chopEnd
  rw [List.length_append, Nat.add_sub_cancel, List.take_left]

theorem chop_mid0 (pre mid : String) :
    chopEnd (((pre ++ mid).data).drop pre.data.length) 0 = mid.data := by
  show chopEnd ((pre.data ++ mid.data).drop pre.data.length) 0 = mid.data
  rw [List.drop_left]
  unfold chopEnd
  rw [Nat.sub_zero, List.take_length]

theorem skip_interp (a line : String) (pre : List Char) (hp : a.data <+: line.data)
    (h1 : ¬ pre <+: a.data) (h2 : ¬ a.data <+: pre) :
    ¬ (pre.isPrefixOf line.data = true) := by
  intro hc
  rw [ List.isPrefixOf_iff_prefix] at hc
  rcases List.prefix_or_prefix_of_prefix hc hp with h | h
  · exact h1 h
  · exact h2 h

theorem isPrefixOf_intro (line : String) (pre : List Char) (h : pre <+: line.data) :
    pre.isPrefixOf line.data = true := by
  rw [ List.isPrefixOf_iff_prefix]
  exact h

theorem find_skip (pre : List Char) (line : String) (rest : List String)
    (h : ¬ (pre.isPrefixOf line.data = true)) :
    List.find? (fun ln => pre.isPrefixOf ln.data) (line :: rest) =
      List.find? (fun ln => pre.isPrefixOf ln.data) rest :=
  List.find?_cons_of_neg _ h

theorem find_hit (pre : List Char) (line : String) (rest : List String)
    (h : pre.isPrefixOf line.data = true) :
    List.find? (fun ln => pre.isPrefixOf ln.data) (line :: rest) = some line :=
  List.find?_cons_of_pos _ h

theorem deriveHuntId_content (timestamp dateStr : String) (d : NotebookData) :
    deriveHuntId (generateNotebookContent timestamp dateStr d) = some d.id := by
  unfold deriveHuntId deriveField generateNotebookContent
  simp only []
  rw [find_skip (['#', '#', ' ', 'H', 'u', 'n', 't', ' ', 'I', 'D', ':', ' '])
    ("*This notebook provides a structured and consistent way to document threat hunting activities using the PEAK Framework (Prepare, Execute, Act with Knowledge). It guides threat hunters through defining clear hypotheses, scoping the hunt precisely using the ABLE methodology, executing targeted queries, and documenting findings to ensure thorough and actionable results.*\n") _ (by decide)]
  rw [find_skip (['#', '#', ' ', 'H', 'u', 'n', 't', ' ', 'I', 'D', ':', ' '])
    ("\n") _ (by decide)]
  rw [find_skip (['#', '#', ' ', 'H', 'u', 'n', 't', ' ', 'I', 'D', ':', ' '])
    ("**Generated:** " ++ timestamp ++ "  \n") _
    (skip_interp ("**Generated:** ") ("**Generated:** " ++ timestamp ++ "  \n")
    (['#', '#', ' ', 'H', 'u', 'n', 't', ' ', 'I', 'D', ':', ' '])
    ((List.prefix_append _ _).trans (List.prefix_append _ _)) (by decide) (by decide))]
  rw [find_skip (['#', '#', ' ', 'H', 'u', 'n', 't', ' ', 'I', 'D', ':', ' '])
    ("**Source:** THOR Collective HEARTH Database  \n") _ (by decide)]
  rw [find_skip (['#', '#', ' ', 'H', 'u', 'n', 't', ' ', 'I', 'D', ':', ' '])
    ("**Database:** https://hearth.thorcollective.com  \n") _ (by decide)]
  rw [find_skip (['#', '#', ' ', 'H', 'u', 'n', 't', ' ', 'I', 'D', ':', ' '])
    ("**Framework:** PEAK (Prepare, Execute, Act with Knowledge)  \n") _ (by decide)]
  rw [find_skip (['#', '#', ' ', 'H', 'u', 'n', 't', ' ', 'I', 'D', ':', ' '])
    ("**Template:** https://dispatch.thorcollective.com/p/the-peak-threat-hunting-template\n") _ (by decide)]
  rw [find_skip (['#', '#', ' ', 'H', 'u', 'n', 't', ' ', 'I', 'D', ':', ' '])
    ("\n") _ (by decide)]
  rw [find_skip (['#', '#', ' ', 'H', 'u', 'n', 't', ' ', 'I', 'D', ':', ' '])
    ("---\n") _ (by decide)]
  rw [find_skip (['#', '#', ' ', 'H', 'u', 'n', 't', ' ', 'I', 'D', ':', ' '])
    ("\n") _ (by decide)]
  rw [find_skip (['#', '#', ' ', 'H', 'u', 'n', 't', ' ', 'I', 'D', ':', ' '])
    ("# Threat Hunting Report - PEAK Framework\n") _ (by decide)]
  rw [find_skip (['#', '#', ' ', 'H', 'u', 'n', 't', ' ', 'I', 'D', ':', ' '])
    ("\n") _ (by decide)]
  rw [find_hit (['#', '#', ' ', 'H', 'u', 'n', 't', ' ', 'I', 'D', ':', ' '])
    ("## Hunt ID: " ++ d.id ++ "\n") _
    (isPrefixOf_intro ("## Hunt ID: " ++ d.id ++ "\n")
    (['#', '#', ' ', 'H', 'u', 'n', 't', ' ', 'I', 'D', ':', ' '])
    ((List.prefix_append _ _).trans (List.prefix_append _ _)))]
  rw [Option.map_some']
  congr 1
  apply String.ext
  exact chop_mid _ _ _

theorem deriveHuntTitle_content (timestamp dateStr : String) (d : NotebookData) :
    deriveHuntTitle (generateNotebookContent timestamp dateStr d) = some (jsOrS d.title ("Threat Hunting Notebook")) := by
  unfold deriveHuntTitle deriveField generateNotebookContent
  simp only []
  rw [find_skip (['#', '#', ' ', 'H', 'u', 'n', 't', ' ', 'T', 'i', 't', 'l', 'e', ':', ' '])
    ("*This notebook provides a structured and consistent way to document threat hunting activities using the PEAK Framework (Prepare, Execute, Act with Knowledge). It guides threat hunters through defining clear hypotheses, scoping the hunt precisely using the ABLE methodology, executing targeted queries, and documenting findings to ensure thorough and actionable results.*\n") _ (by decide)]
  rw [find_skip (['#', '#', ' ', 'H', 'u', 'n', 't', ' ', 'T', 'i', 't', 'l', 'e', ':', ' '])
    ("\n") _ (by decide)]
  rw [find_skip (['#', '#', ' ', 'H', 'u', 'n', 't', ' ', 'T', 'i', 't', 'l', 'e', ':', ' '])
    ("**Generated:** " ++ timestamp ++ "  \n") _
    (skip_interp ("**Generated:** ") ("**Generated:** " ++ timestamp ++ "  \n")
    (['#', '#', ' ', 'H', 'u', 'n', 't', ' ', 'T', 'i', 't', 'l', 'e', ':', ' '])
    ((List.prefix_append _ _).trans (List.prefix_append _ _)) (by decide) (by decide))]
  rw [find_skip (['#', '#', ' ', 'H', 'u', 'n', 't', ' ', 'T', 'i', 't', 'l', 'e', ':', ' '])
    ("**Source:** THOR Collective HEARTH Database  \n") _ (by decide)]
  rw [find_skip (['#', '#', ' ', 'H', 'u', 'n', 't', ' ', 'T', 'i', 't', 'l', 'e', ':', ' '])
    ("**Database:** https://hearth.thorcollective.com  \n") _ (by decide)]
  rw [find_skip (['#', '#', ' ', 'H', 'u', 'n', 't', ' ', 'T', 'i', 't', 'l', 'e', ':', ' '])
    ("**Framework:** PEAK (Prepare, Execute, Act with Knowledge)  \n") _ (by decide)]
  rw [find_skip (['#', '#', ' ', 'H', 'u', 'n', 't', ' ', 'T', 'i', 't', 'l', 'e', ':', ' '])
    ("**Template:** https://dispatch.thorcollective.com/p/the-peak-threat-hunting-template\n") _ (by decide)]
  rw [find_skip (['#', '#', ' ', 'H', 'u', 'n', 't', ' ', 'T', 'i', 't', 'l', 'e', ':', ' '])
    ("\n") _ (by decide)]
  rw [find_skip (['#', '#', ' ', 'H', 'u', 'n', 't', ' ', 'T', 'i', 't', 'l', 'e', ':', ' '])
    ("---\n") _ (by decide)]
  rw [find_skip (['#', '#', ' ', 'H', 'u', 'n', 't', ' ', 'T', 'i', 't', 'l', 'e', ':', ' '])
    ("\n") _ (by decide)]
  rw [find_skip (['#', '#', ' ', 'H', 'u', 'n', 't', ' ', 'T', 'i', 't', 'l', 'e', ':', ' '])
    ("# Threat Hunting Report - PEAK Framework\n") _ (by decide)]
  rw [find_skip (['#', '#', ' ', 'H', 'u', 'n', 't', ' ', 'T', 'i', 't', 'l', 'e', ':', ' '])
    ("\n") _ (by decide)]
  rw [find_skip (['#', '#', ' ', 'H', 'u', 'n', 't', ' ', 'T', 'i', 't', 'l', 'e', ':', ' '])
    ("## Hunt ID: " ++ d.id ++ "\n") _
    (skip_interp ("## Hunt ID: ") ("## Hunt ID: " ++ d.id ++ "\n")
    (['#', '#', ' ', 'H', 'u', 'n', 't', ' ', 'T', 'i', 't', 'l', 'e', ':', ' '])
    ((List.prefix_append _ _).trans (List.prefix_append _ _)) (by decide) (by decide))]
  rw [find_skip (['#', '#', ' ', 'H', 'u', 'n', 't', ' ', 'T', 'i', 't', 'l', 'e', ':', ' '])
    ("*(" ++ d.category ++ " - " ++ (if d.category = ("Flames") then ("Hypothesis-driven") else if d.category = ("Embers") then ("Baseline") else ("Model-Assisted")) ++ ")*\n") _
    (skip_interp ("*(") ("*(" ++ d.category ++ " - " ++ (if d.category = ("Flames") then ("Hypothesis-driven") else if d.category = ("Embers") then ("Baseline") else ("Model-Assisted")) ++ ")*\n")
    (['#', '#', ' ', 'H', 'u', 'n', 't', ' ', 'T', 'i', 't', 'l', 'e', ':', ' '])
    ((((List.prefix_append _ _).trans (List.prefix_append _ _)).trans (List.prefix_append _ _)).trans (List.prefix_append _ _)) (by decide) (by decide))]
  rw [find_skip (['#', '#', ' ', 'H', 'u', 'n', 't', ' ', 'T', 'i', 't', 'l', 'e', ':', ' '])
    ("\n") _ (by decide)]
  rw [find_hit (['#', '#', ' ', 'H', 'u', 'n', 't', ' ', 'T', 'i', 't', 'l', 'e', ':', ' '])
    ("## Hunt Title: " ++ (jsOrS d.title ("Threat Hunting Notebook"))) _
    (isPrefixOf_intro ("## Hunt Title: " ++ (jsOrS d.title ("Threat Hunting Notebook")))
    (['#', '#', ' ', 'H', 'u', 'n', 't', ' ', 'T', 'i', 't', 'l', 'e', ':', ' '])
    (List.prefix_append _ _))]
  rw [Option.map_some']
  congr 1
  apply String.ext
  exact chop_mid0 _ _

theorem deriveHypothesis_content (timestamp dateStr : String) (d : NotebookData) :
    deriveHypothesis (generateNotebookContent timestamp dateStr d) = some d.hypothesis := by
  unfold deriveHypothesis deriveField generateNotebookContent
  simp only []
  rw [find_skip (['|', ' ', '*', '*', 'H', 'y', 'p', 'o', 't', 'h', 'e', 's', 'i', 's', '*', '*', ' ', ' ', ' ', ' ', ' ', ' ', ' ', ' ', ' ', ' ', ' ', ' ', ' ', ' ', ' ', ' ', ' ', ' ', '|', ' '])
    ("*This notebook provides a structured and consistent way to document threat hunting activities using the PEAK Framework (Prepare, Execute, Act with Knowledge). It guides threat hunters through defining clear hypotheses, scoping the hunt precisely using the ABLE methodology, executing targeted queries, and documenting findings to ensure thorough and actionable results.*\n") _ (by decide)]
  rw [find_skip (['|', ' ', '*', '*', 'H', 'y', 'p', 'o', 't', 'h', 'e', 's', 'i', 's', '*', '*', ' ', ' ', ' ', ' ', ' ', ' ', ' ', ' ', ' ', ' ', ' ', ' ', ' ', ' ', ' ', ' ', ' ', ' ', '|', ' '])
    ("\n") _ (by decide)]
  rw [find_skip (['|', ' ', '*', '*', 'H', 'y', 'p', 'o', 't', 'h', 'e', 's', 'i', 's', '*', '*', ' ', ' ', ' ', ' ', ' ', ' ', ' ', ' ', ' ', ' ', ' ', ' ', ' ', ' ', ' ', ' ', ' ', ' ', '|', ' '])
    ("**Generated:** " ++ timestamp ++ "  \n") _
    (skip_interp ("**Generated:** ") ("**Generated:** " ++ timestamp ++ "  \n")
    (['|', ' ', '*', '*', 'H', 'y', 'p', 'o', 't', 'h', 'e', 's', 'i', 's', '*', '*', ' ', ' ', ' ', ' ', ' ', ' ', ' ', ' ', ' ', ' ', ' ', ' ', ' ', ' ', ' ', ' ', ' ', ' ', '|', ' '])
    ((List.prefix_append _ _).trans (List.prefix_append _ _)) (by decide) (by decide))]
  rw [find_skip (['|', ' ', '*', '*', 'H', 'y', 'p', 'o', 't', 'h', 'e', 's', 'i', 's', '*', '*', ' ', ' ', ' ', ' ', ' ', ' ', ' ', ' ', ' ', ' ', ' ', ' ', ' ', ' ', ' ', ' ', ' ', ' ', '|', ' '])
    ("**Source:** THOR Collective HEARTH Database  \n") _ (by decide)]
  rw [find_skip (['|', ' ', '*', '*', 'H', 'y', 'p', 'o', 't', 'h', 'e', 's', 'i', 's', '*', '*', ' ', ' ', ' ', ' ', ' ', ' ', ' ', ' ', ' ', ' ', ' ', ' ', ' ', ' ', ' ', ' ', ' ', ' ', '|', ' '])
    ("**Database:** https://hearth.thorcollective.com  \n") _ (by decide)]
  rw [find_skip (['|', ' ', '*', '*', 'H', 'y', 'p', 'o', 't', 'h', 'e', 's', 'i', 's', '*', '*', ' ', ' ', ' ', ' ', ' ', ' ', ' ', ' ', ' ', ' ', ' ', ' ', ' ', ' ', ' ', ' ', ' ', ' ', '|', ' '])
    ("**Framework:** PEAK (Prepare, Execute, Act with Knowledge)  \n") _ (by decide)]
  rw [find_skip (['|', ' ', '*', '*', 'H', 'y', 'p', 'o', 't', 'h', 'e', 's', 'i', 's', '*', '*', ' ', ' ', ' ', ' ', ' ', ' ', ' ', ' ', ' ', ' ', ' ', ' ', ' ', ' ', ' ', ' ', ' ', ' ', '|', ' '])
    ("**Template:** https://dispatch.thorcollective.com/p/the-peak-threat-hunting-template\n") _ (by decide)]
  rw [find_skip (['|', ' ', '*', '*', 'H', 'y', 'p', 'o', 't', 'h', 'e', 's', 'i', 's', '*', '*', ' ', ' ', ' ', ' ', ' ', ' ', ' ', ' ', ' ', ' ', ' ', ' ', ' ', ' ', ' ', ' ', ' ', ' ', '|', ' '])
    ("\n") _ (by decide)]
  rw [find_skip (['|', ' ', '*', '*', 'H', 'y', 'p', 'o', 't', 'h', 'e', 's', 'i', 's', '*', '*', ' ', ' ', ' ', ' ', ' ', ' ', ' ', ' ', ' ', ' ', ' ', ' ', ' ', ' ', ' ', ' ', ' ', ' ', '|', ' '])
    ("---\n") _ (by decide)]
  rw [find_skip (['|', ' ', '*', '*', 'H', 'y', 'p', 'o', 't', 'h', 'e', 's', 'i', 's', '*', '*', ' ', ' ', ' ', ' ', ' ', ' ', ' ', ' ', ' ', ' ', ' ', ' ', ' ', ' ', ' ', ' ', ' ', ' ', '|', ' '])
    ("\n") _ (by decide)]
  rw [find_skip (['|', ' ', '*', '*', 'H', 'y', 'p', 'o', 't', 'h', 'e', 's', 'i', 's', '*', '*', ' ', ' ', ' ', ' ', ' ', ' ', ' ', ' ', ' ', ' ', ' ', ' ', ' ', ' ', ' ', ' ', ' ', ' ', '|', ' '])
    ("# Threat Hunting Report - PEAK Framework\n") _ (by decide)]
  rw [find_skip (['|', ' ', '*', '*', 'H', 'y', 'p', 'o', 't', 'h', 'e', 's', 'i', 's', '*', '*', ' ', ' ', ' ', ' ', ' ', ' ', ' ', ' ', ' ', ' ', ' ', ' ', ' ', ' ', ' ', ' ', ' ', ' ', '|', ' '])
    ("\n") _ (by decide)]
  rw [find_skip (['|', ' ', '*', '*', 'H', 'y', 'p', 'o', 't', 'h', 'e', 's', 'i', 's', '*', '*', ' ', ' ', ' ', ' ', ' ', ' ', ' ', ' ', ' ', ' ', ' ', ' ', ' ', ' ', ' ', ' ', ' ', ' ', '|', ' '])
    ("## Hunt ID: " ++ d.id ++ "\n") _
    (skip_interp ("## Hunt ID: ") ("## Hunt ID: " ++ d.id ++ "\n")
    (['|', ' ', '*', '*', 'H', 'y', 'p', 'o', 't', 'h', 'e', 's', 'i', 's', '*', '*', ' ', ' ', ' ', ' ', ' ', ' ', ' ', ' ', ' ', ' ', ' ', ' ', ' ', ' ', ' ', ' ', ' ', ' ', '|', ' '])
    ((List.prefix_append _ _).trans (List.prefix_append _ _)) (by decide) (by decide))]
  rw [find_skip (['|', ' ', '*', '*', 'H', 'y', 'p', 'o', 't', 'h', 'e', 's', 'i', 's', '*', '*', ' ', ' ', ' ', ' ', ' ', ' ', ' ', ' ', ' ', ' ', ' ', ' ', ' ', ' ', ' ', ' ', ' ', ' ', '|', ' '])
    ("*(" ++ d.category ++ " - " ++ (if d.category = ("Flames") then ("Hypothesis-driven") else if d.category = ("Embers") then ("Baseline") else ("Model-Assisted")) ++ ")*\n") _
    (skip_interp ("*(") ("*(" ++ d.category ++ " - " ++ (if d.category = ("Flames") then ("Hypothesis-driven") else if d.category = ("Embers") then ("Baseline") else ("Model-Assisted")) ++ ")*\n")
    (['|', ' ', '*', '*', 'H', 'y', 'p', 'o', 't', 'h', 'e', 's', 'i', 's', '*', '*', ' ', ' ', ' ', ' ', ' ', ' ', ' ', ' ', ' ', ' ', ' ', ' ', ' ', ' ', ' ', ' ', ' ', ' ', '|', ' '])
    ((((List.prefix_append _ _).trans (List.prefix_append _ _)).trans (List.prefix_append _ _)).trans (List.prefix_append _ _)) (by decide) (by decide))]
  rw [find_skip (['|', ' ', '*', '*', 'H', 'y', 'p', 'o', 't', 'h', 'e', 's', 'i', 's', '*', '*', ' ', ' ', ' ', ' ', ' ', ' ', ' ', ' ', ' ', ' ', ' ', ' ', ' ', ' ', ' ', ' ', ' ', ' ', '|', ' '])
    ("\n") _ (by decide)]
  rw [find_skip (['|', ' ', '*', '*', 'H', 'y', 'p', 'o', 't', 'h', 'e', 's', 'i', 's', '*', '*', ' ', ' ', ' ', ' ', ' ', ' ', ' ', ' ', ' ', ' ', ' ', ' ', ' ', ' ', ' ', ' ', ' ', ' ', '|', ' '])
    ("## Hunt Title: " ++ (jsOrS d.title ("Threat Hunting Notebook"))) _
    (skip_interp ("## Hunt Title: ") ("## Hunt Title: " ++ (jsOrS d.title ("Threat Hunting Notebook")))
    (['|', ' ', '*', '*', 'H', 'y', 'p', 'o', 't', 'h', 'e', 's', 'i', 's', '*', '*', ' ', ' ', ' ', ' ', ' ', ' ', ' ', ' ', ' ', ' ', ' ', ' ', ' ', ' ', ' ', ' ', ' ', ' ', '|', ' '])
    (List.prefix_append _ _) (by decide) (by decide))]
  rw [find_skip (['|', ' ', '*', '*', 'H', 'y', 'p', 'o', 't', 'h', 'e', 's', 'i', 's', '*', '*', ' ', ' ', ' ', ' ', ' ', ' ', ' ', ' ', ' ', ' ', ' ', ' ', ' ', ' ', ' ', ' ', ' ', ' ', '|', ' '])
    ("---\n") _ (by decide)]
  rw [find_skip (['|', ' ', '*', '*', 'H', 'y', 'p', 'o', 't', 'h', 'e', 's', 'i', 's', '*', '*', ' ', ' ', ' ', ' ', ' ', ' ', ' ', ' ', ' ', ' ', ' ', ' ', ' ', ' ', ' ', ' ', ' ', ' ', '|', ' '])
    ("\n") _ (by decide)]
  rw [find_skip (['|', ' ', '*', '*', 'H', 'y', 'p', 'o', 't', 'h', 'e', 's', 'i', 's', '*', '*', ' ', ' ', ' ', ' ', ' ', ' ', ' ', ' ', ' ', ' ', ' ', ' ', ' ', ' ', ' ', ' ', ' ', ' ', '|', ' '])
    ("## PREPARE: Define the Hunt\n") _ (by decide)]
  rw [find_skip (['|', ' ', '*', '*', 'H', 'y', 'p', 'o', 't', 'h', 'e', 's', 'i', 's', '*', '*', ' ', ' ', ' ', ' ', ' ', ' ', ' ', ' ', ' ', ' ', ' ', ' ', ' ', ' ', ' ', ' ', ' ', ' ', '|', ' '])
    ("\n") _ (by decide)]
  rw [find_skip (['|', ' ', '*', '*', 'H', 'y', 'p', 'o', 't', 'h', 'e', 's', 'i', 's', '*', '*', ' ', ' ', ' ', ' ', ' ', ' ', ' ', ' ', ' ', ' ', ' ', ' ', ' ', ' ', ' ', ' ', ' ', ' ', '|', ' '])
    ("| **Hunt Information**            | **Details** |\n") _ (by decide)]
  rw [find_skip (['|', ' ', '*', '*', 'H', 'y', 'p', 'o', 't', 'h', 'e', 's', 'i', 's', '*', '*', ' ', ' ', ' ', ' ', ' ', ' ', ' ', ' ', ' ', ' ', ' ', ' ', ' ', ' ', ' ', ' ', ' ', ' ', '|', ' '])
    ("|----------------------------------|-------------|\n") _ (by decide)]
  rw [find_hit (['|', ' ', '*', '*', 'H', 'y', 'p', 'o', 't', 'h', 'e', 's', 'i', 's', '*', '*', ' ', ' ', ' ', ' ', ' ', ' ', ' ', ' ', ' ', ' ', ' ', ' ', ' ', ' ', ' ', ' ', ' ', ' ', '|', ' '])
    ("| **Hypothesis**                  | " ++ d.hypothesis ++ " |\n") _
    (isPrefixOf_intro ("| **Hypothesis**                  | " ++ d.hypothesis ++ " |\n")
    (['|', ' ', '*', '*', 'H', 'y', 'p', 'o', 't', 'h', 'e', 's', 'i', 's', '*', '*', ' ', ' ', ' ', ' ', ' ', ' ', ' ', ' ', ' ', ' ', ' ', ' ', ' ', ' ', ' ', ' ', ' ', ' ', '|', ' '])
    ((List.prefix_append _ _).trans (List.prefix_append _ _)))]
  rw [Option.map_some']
  congr 1
  apply String.ext
  exact chop_mid _ _ _

theorem deriveTactic_content (timestamp dateStr : String) (d : NotebookData) :
    deriveTactic (generateNotebookContent timestamp dateStr d) = some (jsOrS d.tactic ("TAxxxx - Tactic Name")) := by
  unfold deriveTactic deriveField generateNotebookContent
  simp only []
  rw [find_skip ([' ', ' ', '-', ' ', '`'])
    ("*This notebook provides a structured and consistent way to document threat hunting activities using the PEAK Framework (Prepare, Execute, Act with Knowledge). It guides threat hunters through defining clear hypotheses, scoping the hunt precisely using the ABLE methodology, executing targeted queries, and documenting findings to ensure thorough and actionable results.*\n") _ (by decide)]
  rw [find_skip ([' ', ' ', '-', ' ', '`'])
    ("\n") _ (by decide)]
  rw [find_skip ([' ', ' ', '-', ' ', '`'])
    ("**Generated:** " ++ timestamp ++ "  \n") _
    (skip_interp ("**Generated:** ") ("**Generated:** " ++ timestamp ++ "  \n")
    ([' ', ' ', '-', ' ', '`'])
    ((List.prefix_append _ _).trans (List.prefix_append _ _)) (by decide) (by decide))]
  rw [find_skip ([' ', ' ', '-', ' ', '`'])
    ("**Source:** THOR Collective HEARTH Database  \n") _ (by decide)]
  rw [find_skip ([' ', ' ', '-', ' ', '`'])
    ("**Database:** https://hearth.thorcollective.com  \n") _ (by decide)]
  rw [find_skip ([' ', ' ', '-', ' ', '`'])
    ("**Framework:** PEAK (Prepare, Execute, Act with Knowledge)  \n") _ (by decide)]
  rw [find_skip ([' ', ' ', '-', ' ', '`'])
    ("**Template:** https://dispatch.thorcollective.com/p/the-peak-threat-hunting-template\n") _ (by decide)]
  rw [find_skip ([' ', ' ', '-', ' ', '`'])
    ("\n") _ (by decide)]
  rw [find_skip ([' ', ' ', '-', ' ', '`'])
    ("---\n") _ (by decide)]
  rw [find_skip ([' ', ' ', '-', ' ', '`'])
    ("\n") _ (by decide)]
  rw [find_skip ([' ', ' ', '-', ' ', '`'])
    ("# Threat Hunting Report - PEAK Framework\n") _ (by decide)]
  rw [find_skip ([' ', ' ', '-', ' ', '`'])
    ("\n") _ (by decide)]
  rw [find_skip ([' ', ' ', '-', ' ', '`'])
    ("## Hunt ID: " ++ d.id ++ "\n") _
    (skip_interp ("## Hunt ID: ") ("## Hunt ID: " ++ d.id ++ "\n")
    ([' ', ' ', '-', ' ', '`'])
    ((List.prefix_append _ _).trans (List.prefix_append _ _)) (by decide) (by decide))]
  rw [find_skip ([' ', ' ', '-', ' ', '`'])
    ("*(" ++ d.category ++ " - " ++ (if d.category = ("Flames") then ("Hypothesis-driven") else if d.category = ("Embers") then ("Baseline") else ("Model-Assisted")) ++ ")*\n") _
    (skip_interp ("*(") ("*(" ++ d.category ++ " - " ++ (if d.category = ("Flames") then ("Hypothesis-driven") else if d.category = ("Embers") then ("Baseline") else ("Model-Assisted")) ++ ")*\n")
    ([' ', ' ', '-', ' ', '`'])
    ((((List.prefix_append _ _).trans (List.prefix_append _ _)).trans (List.prefix_append _ _)).trans (List.prefix_append _ _)) (by decide) (by decide))]
  rw [find_skip ([' ', ' ', '-', ' ', '`'])
    ("\n") _ (by decide)]
  rw [find_skip ([' ', ' ', '-', ' ', '`'])
    ("## Hunt Title: " ++ (jsOrS d.title ("Threat Hunting Notebook"))) _
    (skip_interp ("## Hunt Title: ") ("## Hunt Title: " ++ (jsOrS d.title ("Threat Hunting Notebook")))
    ([' ', ' ', '-', ' ', '`'])
    (List.prefix_append _ _) (by decide) (by decide))]
  rw [find_skip ([' ', ' ', '-', ' ', '`'])
    ("---\n") _ (by decide)]
  rw [find_skip ([' ', ' ', '-', ' ', '`'])
    ("\n") _ (by decide)]
  rw [find_skip ([' ', ' ', '-', ' ', '`'])
    ("## PREPARE: Define the Hunt\n") _ (by decide)]
  rw [find_skip ([' ', ' ', '-', ' ', '`'])
    ("\n") _ (by decide)]
  rw [find_skip ([' ', ' ', '-', ' ', '`'])
    ("| **Hunt Information**            | **Details** |\n") _ (by decide)]
  rw [find_skip ([' ', ' ', '-', ' ', '`'])
    ("|----------------------------------|-------------|\n") _ (by decide)]
  rw [find_skip ([' ', ' ', '-', ' ', '`'])
    ("| **Hypothesis**                  | " ++ d.hypothesis ++ " |\n") _
    (skip_interp ("| **Hypothesis**                  | ") ("| **Hypothesis**                  | " ++ d.hypothesis ++ " |\n")
    ([' ', ' ', '-', ' ', '`'])
    ((List.prefix_append _ _).trans (List.prefix_append _ _)) (by decide) (by decide))]
  rw [find_skip ([' ', ' ', '-', ' ', '`'])
    ("| **Threat Hunter Name**          | [Your Name] |\n") _ (by decide)]
  rw [find_skip ([' ', ' ', '-', ' ', '`'])
    ("| **Date**                        | " ++ dateStr ++ " |\n") _
    (skip_interp ("| **Date**                        | ") ("| **Date**                        | " ++ dateStr ++ " |\n")
    ([' ', ' ', '-', ' ', '`'])
    ((List.prefix_append _ _).trans (List.prefix_append _ _)) (by decide) (by decide))]
  rw [find_skip ([' ', ' ', '-', ' ', '`'])
    ("| **Requestor**                   | [Requestor Name] |\n") _ (by decide)]
  rw [find_skip ([' ', ' ', '-', ' ', '`'])
    ("| **Timeframe for hunt**          | [Expected Duration] |\n") _ (by decide)]
  rw [find_skip ([' ', ' ', '-', ' ', '`'])
    ("\n") _ (by decide)]
  rw [find_skip ([' ', ' ', '-', ' ', '`'])
    ("## Scoping with the ABLE Methodology\n") _ (by decide)]
  rw [find_skip ([' ', ' ', '-', ' ', '`'])
    ("\n") _ (by decide)]
  rw [find_skip ([' ', ' ', '-', ' ', '`'])
    ("*Clearly define your hunt scope using the ABLE framework. Replace all placeholders with relevant details for your scenario.*\n") _ (by decide)]
  rw [find_skip ([' ', ' ', '-', ' ', '`'])
    ("\n") _ (by decide)]
  rw [find_skip ([' ', ' ', '-', ' ', '`'])
    ("| **Field**   | **Description**                                                                                                                                                                                                                                                                             | **Your Input**                   |\n") _ (by decide)]
  rw [find_skip ([' ', ' ', '-', ' ', '`'])
    ("|-------------|---------------------------------------------------------------------------------------------------------------------------------------------------------------------------------------------------------------------------------------------------------------------------------------------|----------------------------------|\n") _ (by decide)]
  rw [find_skip ([' ', ' ', '-', ' ', '`'])
    ("| **Actor**   | *(Optional)* Identify the threat actor involved with the behavior, if applicable. This step is optional because hunts aren\x27t always tied to a specific actor. You may be investigating techniques used across multiple adversaries or looking for suspicious activity regardless of attribution. Focus on the what and how before the who, unless actor context adds meaningful value to the hunt.  | `[Threat Actor or N/A]`          |\n") _ (by decide)]
  rw [find_skip ([' ', ' ', '-', ' ', '`'])
    ("| **Behavior**| Describe the actions observed or expected, including tactics, techniques, and procedures (TTPs). Specify methods or tools involved.                                                                                                                                                 | `[Describe observed or expected behavior]` |\n") _ (by decide)]
  rw [find_skip ([' ', ' ', '-', ' ', '`'])
    ("| **Location**| Specify where the activity occurred, such as an endpoint, network segment, or cloud environment.                                                                                                                                 | `[Location]`            |\n") _ (by decide)]
  rw [find_skip ([' ', ' ', '-', ' ', '`'])
    ("| **Evidence**| Clearly list logs, artifacts, or telemetry supporting your hypothesis. For each source, provide critical fields required to validate the behavior, and include specific examples of observed or known malicious activity to illustrate expected findings. | `- Source: [Log Source]`<br>`- Key Fields: [Critical Fields]`<br>`- Example: [Expected Example of Malicious Activity]`<br><br>`- Source: [Additional Source]`<br>`- Key Fields: [Critical Fields]`<br>`- Example: [Expected Example of Malicious Activity]` |\n") _ (by decide)]
  rw [find_skip ([' ', ' ', '-', ' ', '`'])
    ("\n") _ (by decide)]
  rw [find_skip ([' ', ' ', '-', ' ', '`'])
    ("## Related Tickets (detection coverage, previous incidents, etc.)\n") _ (by decide)]
  rw [find_skip ([' ', ' ', '-', ' ', '`'])
    ("\n") _ (by decide)]
  rw [find_skip ([' ', ' ', '-', ' ', '`'])
    ("| **Role**                        | **Ticket and Other Details** |\n") _ (by decide)]
  rw [find_skip ([' ', ' ', '-', ' ', '`'])
    ("|----------------------------------|------------------------------|\n") _ (by decide)]
  rw [find_skip ([' ', ' ', '-', ' ', '`'])
    ("| **SOC/IR**                      | [Insert related ticket or incident details] |\n") _ (by decide)]
  rw [find_skip ([' ', ' ', '-', ' ', '`'])
    ("| **Threat Intel (TI)**            | [Insert related ticket] |\n") _ (by decide)]
  rw [find_skip ([' ', ' ', '-', ' ', '`'])
    ("| **Detection Engineering (DE)**   | [Insert related ticket] |\n") _ (by decide)]
  rw [find_skip ([' ', ' ', '-', ' ', '`'])
    ("| **Red Team / Pen Testing**       | [Insert related ticket] |\n") _ (by decide)]
  rw [find_skip ([' ', ' ', '-', ' ', '`'])
    ("| **Other**                        | [Insert related ticket] |\n") _ (by decide)]
  rw [find_skip ([' ', ' ', '-', ' ', '`'])
    ("\n") _ (by decide)]
  rw [find_skip ([' ', ' ', '-', ' ', '`'])
    ("## **Threat Intel & Research**\n") _ (by decide)]
  rw [find_skip ([' ', ' ', '-', ' ', '`'])
    ("- **MITRE ATT&CK Techniques:**\n") _ (by decide)]
  rw [find_hit ([' ', ' ', '-', ' ', '`'])
    ("  - `" ++ jsOrS d.tactic ("TAxxxx - Tactic Name") ++ "`\n") _
    (isPrefixOf_intro ("  - `" ++ jsOrS d.tactic ("TAxxxx - Tactic Name") ++ "`\n")
    ([' ', ' ', '-', ' ', '`'])
    ((List.prefix_append _ _).trans (List.prefix_append _ _)))]
  rw [Option.map_some']
  congr 1
  apply String.ext
  exact chop_mid _ _ _

theorem notebookData_title_ne {hunt : Hunt} (h : hunt.title ≠ "") :
    (notebookData hunt).title = hunt.title := by
  show jsOrS hunt.title (jsOrO hunt.notes ("Untitled Hunt")) = hunt.title
  unfold jsOrS
  rw [if_neg h]

theorem notebookData_tactic_some {hunt : Hunt} {tt : String}
    (htac : hunt.tactic = some tt) (htt : tt ≠ "") :
    (notebookData hunt).tactic = tt := by
  show jsOrO hunt.tactic ("") = tt
  rw [htac]
  unfold jsOrO
  simp only []
  rw [if_neg htt]

/-- C9: for a record found by id whose title and tactic are present and
non-empty, generating the notebook artifact and re-deriving the Hunt ID,
Hunt Title and tactic header fields from it reproduces the record's
`id`, `title` and `tactic` verbatim. -/
theorem c9_notebook_roundtrip (huntsData : List Hunt)
    (huntId timestamp dateStr : String) (hunt : Hunt) (tt : String)
    (hfind : huntsData.find? (fun h => h.id == huntId) = some hunt)
    (htitle : hunt.title ≠ "")
    (htac : hunt.tactic = some tt) (htt : tt ≠ "") :
    generateNotebook huntsData huntId timestamp dateStr =
      Except.ok (generateNotebookContent timestamp dateStr (notebookData hunt)) ∧
    deriveHuntId (generateNotebookContent timestamp dateStr (notebookData hunt)) =
      some hunt.id ∧
    deriveHuntTitle (generateNotebookContent timestamp dateStr (notebookData hunt)) =
      some hunt.title ∧
    deriveTactic (generateNotebookContent timestamp dateStr (notebookData hunt)) =
      some tt := by
  refine ⟨?_, ?_, ?_, ?_⟩
  · unfold generateNotebook
    rw [hfind]
  · rw [deriveHuntId_content]
    rfl
  · rw [deriveHuntTitle_content, notebookData_title_ne htitle]
    show some (jsOrS hunt.title ("Threat Hunting Notebook")) = some hunt.title
    unfold jsOrS
    rw [if_neg htitle]
  · rw [deriveTactic_content, notebookData_tactic_some htac htt]
    show some (jsOrS tt ("TAxxxx - Tactic Name")) = some tt
    unfold jsOrS
    rw [if_neg htt]

/-- Witness for C9 on a concrete snapshot and record. -/
theorem c9_notebook_roundtrip_witness :
    ([chatHunt ("H001") ("Title A") ("Persistence")].find?
        (fun h => h.id == ("H001")) =
      some (chatHunt ("H001") ("Title A") ("Persistence"))) ∧
    ((chatHunt ("H001") ("Title A") ("Persistence")).title ≠ "") ∧
    ((chatHunt ("H001") ("Title A") ("Persistence")).tactic = some ("Persistence")) ∧
    (generateNotebook [chatHunt ("H001") ("Title A") ("Persistence")] ("H001")
        ("2026-01-01T00:00:00Z") ("1/1/2026") =
      Except.ok (generateNotebookContent ("2026-01-01T00:00:00Z") ("1/1/2026")
        (notebookData (chatHunt ("H001") ("Title A") ("Persistence")))) ∧
    deriveHuntId (generateNotebookContent ("2026-01-01T00:00:00Z") ("1/1/2026")
        (notebookData (chatHunt ("H001") ("Title A") ("Persistence")))) =
      some (chatHunt ("H001") ("Title A") ("Persistence")).id ∧
    deriveHuntTitle (generateNotebookContent ("2026-01-01T00:00:00Z") ("1/1/2026")
        (notebookData (chatHunt ("H001") ("Title A") ("Persistence")))) =
      some (chatHunt ("H001") ("Title A") ("Persistence")).title ∧
    deriveTactic (generateNotebookContent ("2026-01-01T00:00:00Z") ("1/1/2026")
        (notebookData (chatHunt ("H001") ("Title A") ("Persistence")))) =
      some ("Persistence")) :=
  ⟨by decide, by decide, by decide,
    c9_notebook_roundtrip _ _ _ _ _ _ (by decide) (by decide) (by decide) (by decide)⟩

/-- C10: for every record found by id, the generator substitutes
fallbacks before templating: the artifact's derived title is
`hunt.title || hunt.notes || 'Untitled Hunt'` and its derived hypothesis
is `hunt.notes || hunt.title || ''` (JavaScript truthiness: absent or
empty falls through); in particular when title and notes are both absent
or empty the header is still defined, with the literal placeholder
`'Untitled Hunt'` as title and the empty hypothesis. -/
theorem c10_notebook_fallbacks (huntsData : List Hunt)
    (huntId timestamp dateStr : String) (hunt : Hunt)
    (hfind : huntsData.find? (fun h => h.id == huntId) = some hunt) :
    generateNotebook huntsData huntId timestamp dateStr =
      Except.ok (generateNotebookContent timestamp dateStr (notebookData hunt)) ∧
    deriveHuntTitle (generateNotebookContent timestamp dateStr (notebookData hunt)) =
      some (jsOrS hunt.title (jsOrO hunt.notes ("Untitled Hunt"))) ∧
    deriveHypothesis (generateNotebookContent timestamp dateStr (notebookData hunt)) =
      some (jsOrO hunt.notes (jsOrS hunt.title (""))) ∧
    ((hunt.title = "" ∧ (hunt.notes = none ∨ hunt.notes = some (""))) →
      deriveHuntTitle (generateNotebookContent timestamp dateStr (notebookData hunt)) =
        some ("Untitled Hunt") ∧
      deriveHypothesis (generateNotebookContent timestamp dateStr (notebookData hunt)) =
        some ("")) := by
  have hTitleNe : (notebookData hunt).title ≠ "" := by
    show jsOrS hunt.title (jsOrO hunt.notes ("Untitled Hunt")) ≠ ""
    unfold jsOrS jsOrO
    by_cases h1 : hunt.title = ""
    · rw [if_pos h1]
      rcases hn : hunt.notes with _ | n
      · simp only []
        decide
      · simp only []
        by_cases h2 : n = ""
        · rw [if_pos h2]
          decide
        · rw [if_neg h2]
          exact h2
    · rw [if_neg h1]
      exact h1
  have hTitleEq : deriveHuntTitle (generateNotebookContent timestamp dateStr
      (notebookData hunt)) = some ((notebookData hunt).title) := by
    rw [deriveHuntTitle_content]
    show some (jsOrS (notebookData hunt).title ("Threat Hunting Notebook")) = _
    unfold jsOrS
    rw [if_neg hTitleNe]
  refine ⟨?_, ?_, ?_, ?_⟩
  · unfold generateNotebook
    rw [hfind]
  · rw [hTitleEq]
    rfl
  · rw [deriveHypothesis_content]
    rfl
  · rintro ⟨h1, h2⟩
    constructor
    · rw [hTitleEq]
      show some (jsOrS hunt.title (jsOrO hunt.notes ("Untitled Hunt"))) = _
      unfold jsOrS jsOrO
      rw [if_pos h1]
      rcases h2 with h2 | h2
      · rw [h2]
      · rw [h2]
        simp only []
        rw [if_pos trivial]
    · rw [deriveHypothesis_content]
      show some (jsOrO hunt.notes (jsOrS hunt.title (""))) = some ("")
      unfold jsOrO jsOrS
      rcases h2 with h2 | h2 <;> rw [h2] <;> simp only []
      · rw [if_pos h1]
      · rw [if_pos trivial, if_pos h1]

/-- Witness for C10 on a record whose title and notes are both absent:
the derived header title is the literal placeholder. -/
theorem c10_notebook_fallbacks_witness :
    ([mkHunt ("H002")].find? (fun h => h.id == ("H002")) = some (mkHunt ("H002"))) ∧
    (generateNotebook [mkHunt ("H002")] ("H002") ("2026-01-01T00:00:00Z") ("1/1/2026") =
      Except.ok (generateNotebookContent ("2026-01-01T00:00:00Z") ("1/1/2026")
        (notebookData (mkHunt ("H002")))) ∧
    deriveHuntTitle (generateNotebookContent ("2026-01-01T00:00:00Z") ("1/1/2026")
        (notebookData (mkHunt ("H002")))) =
      some (jsOrS (mkHunt ("H002")).title
        (jsOrO (mkHunt ("H002")).notes ("Untitled Hunt"))) ∧
    deriveHypothesis (generateNotebookContent ("2026-01-01T00:00:00Z") ("1/1/2026")
        (notebookData (mkHunt ("H002")))) =
      some (jsOrO (mkHunt ("H002")).notes (jsOrS (mkHunt ("H002")).title (""))) ∧
    (((mkHunt ("H002")).title = "" ∧
        ((mkHunt ("H002")).notes = none ∨ (mkHunt ("H002")).notes = some (""))) →
      deriveHuntTitle (generateNotebookContent ("2026-01-01T00:00:00Z") ("1/1/2026")
          (notebookData (mkHunt ("H002")))) = some ("Untitled Hunt") ∧
      deriveHypothesis (generateNotebookContent ("2026-01-01T00:00:00Z") ("1/1/2026")
          (notebookData (mkHunt ("H002")))) = some (""))) :=
  ⟨by decide, c10_notebook_fallbacks _ _ _ _ _ (by decide)⟩
